import Mathlib

/-!
Verification development for the Intersection repository: a shallow
embedding of the intersection/conflict/resolution pipeline of
`api_intersection_sync.py` and `database_intersection_sync.py`, together
with theorems settling the spec claims about it.

Modelling conventions:
* Python dicts holding JSON data become association lists
  `List (String × JValue)` (insertion-ordered mappings, as in CPython).
* `hashlib.md5(s).hexdigest()` applied to the canonical serialization is
  modelled by the canonical serialization string itself: md5 is a fixed
  function of its input, so equal serializations give equal digests, and
  the digests of distinct serializations are treated as distinct
  (md5 collisions are outside the model).
* Payload values in this repository are JSON scalars and arrays (the
  mock data contains no nested objects), so `JValue` provides null,
  booleans, integers, strings and arrays; `json.dumps(..., sort_keys=True)`
  therefore sorts keys exactly at the payload level. Numeric payload
  values are modelled as integers; no claim depends on numeric formatting.
-/

/-- Scalar JSON values appearing in this repository's payload fields. -/
inductive JPrim : Type where
  | null : JPrim
  | bool : Bool → JPrim
  | num : Int → JPrim
  | str : String → JPrim
deriving DecidableEq, Repr

/-- JSON-like values stored in API payload fields: scalars, or arrays of
scalars (the only array values this repository's data contains). -/
inductive JValue : Type where
  | prim : JPrim → JValue
  | arr : List JPrim → JValue
deriving DecidableEq, Repr

/-- Shorthand for string-valued fields. -/
def JStr (s : String) : JValue := JValue.prim (JPrim.str s)

def JNum (n : Int) : JValue := JValue.prim (JPrim.num n)

def JNull : JValue := JValue.prim JPrim.null

/-- A payload is a Python dict of fields, kept in insertion order. -/
abbrev Payload : Type := List (String × JValue)

/-- Python `d.get(k)`: the value of the first (only) entry with key k. -/
def pget (p : Payload) (k : String) : Option JValue :=
  (List.find? (fun e => e.1 = k) p).map (fun e => e.2)

/-- Keys of a payload, in insertion order. -/
def pkeys (p : Payload) : List String :=
  List.map (fun e => e.1) p

/-- JSON string escaping as performed by json.dumps on the characters
that actually matter here: quote and backslash. -/
def escapeChar (c : Char) : String :=
  if c = '"' then "\\\""
  else if c = '\\' then "\\\\"
  else String.singleton c

def escape (s : String) : String :=
  String.join (s.toList.map escapeChar)

/-- Serialization of one scalar value, as json.dumps renders it. -/
def serializeP : JPrim → String
  | JPrim.null => "null"
  | JPrim.bool b => if b then "true" else "false"
  | JPrim.num n => toString n
  | JPrim.str s => "\"" ++ escape s ++ "\""

/-- Comma-joined serialization of an array's elements. -/
def serializePList : List JPrim → String
  | [] => ""
  | [x] => serializeP x
  | x :: y :: xs => serializeP x ++ "," ++ serializePList (y :: xs)

/-- Serialization of one JSON value with separators `(',', ':')`,
as json.dumps produces it. -/
def serializeJ : JValue → String
  | JValue.prim p => serializeP p
  | JValue.arr xs => "[" ++ serializePList xs ++ "]"

/-- Strict lexicographic comparison of char lists by code point, the
order Python uses on strings. -/
def charListLt : List Char → List Char → Bool
  | [], [] => false
  | [], _ :: _ => true
  | _ :: _, [] => false
  | a :: as, b :: bs =>
      if a.toNat < b.toNat then true
      else if b.toNat < a.toNat then false
      else charListLt as bs

/-- Python s < t on strings. -/
def pyLt (s t : String) : Bool := charListLt s.toList t.toList

/-- Python s <= t on strings. -/
def pyLe (s t : String) : Bool := pyLt s t || s == t

/-- Insert a key into a sorted list of keys, keeping it sorted. -/
def insertKey (k : String) : List String → List String
  | [] => [k]
  | x :: xs => if pyLe k x then k :: x :: xs else x :: insertKey k xs

/-- Sort a list of keys, as Python sorted() does for sort_keys=True. -/
def sortKeys : List String → List String
  | [] => []
  | k :: ks => insertKey k (sortKeys ks)

/-- Rendering of one field of a sorted dict dump. -/
def renderField (p : Payload) (k : String) : String :=
  "\"" ++ escape k ++ "\":" ++ serializeJ ((pget p k).getD JNull)

def joinComma : List String → String
  | [] => ""
  | [x] => x
  | x :: y :: xs => x ++ "," ++ joinComma (y :: xs)

/-- Model of json.dumps(data, sort_keys=True, separators=(',', ':')):
iterate the keys in sorted order and emit each key's value. -/
def dumpsSorted (p : Payload) : String :=
  "\x7b" ++ joinComma ((sortKeys (pkeys p)).map (renderField p)) ++ "\x7d"

namespace APISync

/-- APIRecord.calculate_checksum: md5 of the canonical payload dump,
modelled by the dump itself (see the header note on md5). -/
def calculate_checksum (data : Payload) : String :=
  dumpsSorted data

/-- APIRecord as constructed in scan_intersections: checksum is filled in
by post-init from the payload. -/
structure APIRecord where
  id : String
  data : Payload
  last_modified : String
  checksum : String
  source_api : String
deriving DecidableEq

/-- Constructor used by scan_intersections: __post_init__ computes the
checksum from the payload. -/
def APIRecord.make (id : String) (data : Payload) (lm : String) (src : String) : APIRecord :=
  ⟨id, data, lm, calculate_checksum data, src⟩

end APISync

/-- Numeric value of a decimal digit character. -/
def dig (c : Char) : Option Nat :=
  if c.isDigit then some (c.toNat - 48) else none

def dig2 (a b : Char) : Option Nat := do
  let x ← dig a
  let y ← dig b
  some (x * 10 + y)

def dig4 (a b c d : Char) : Option Nat := do
  let x ← dig2 a b
  let y ← dig2 c d
  some (x * 100 + y)

/-- Day index of a date, strictly monotone in (year, month, day).
Months are range-checked to 1..12 and days to 1..31; per-month day
validation is omitted since no claim distinguishes it. -/
def dateVal (y1 y2 y3 y4 m1 m2 d1 d2 : Char) : Option Nat := do
  let y ← dig4 y1 y2 y3 y4
  let m ← dig2 m1 m2
  let d ← dig2 d1 d2
  if 1 ≤ m ∧ m ≤ 12 ∧ 1 ≤ d ∧ d ≤ 31 then some ((y * 12 + m) * 31 + d) else none

/-- Second-of-day of a time, range-checked as fromisoformat does. -/
def timeVal (h1 h2 mi1 mi2 s1 s2 : Char) : Option Nat := do
  let h ← dig2 h1 h2
  let mi ← dig2 mi1 mi2
  let s ← dig2 s1 s2
  if h ≤ 23 ∧ mi ≤ 59 ∧ s ≤ 59 then some ((h * 60 + mi) * 60 + s) else none

/-- Model of datetime.fromisoformat(...).timestamp() over the two
timestamp shapes this repository's data produces: a bare date, or a
date, a T, a time and a +00:00 offset (the source first rewrites a
trailing Z into +00:00). The value is an order-isomorphic stand-in for
the POSIX timestamp: the source only ever compares parsed timestamps,
and for the post-1970 timestamps this program handles the modelled
ordering agrees with the POSIX one. -/
def fromisoformat (s : String) : Option Nat :=
  match s.toList with
  | [y1, y2, y3, y4, '-', m1, m2, '-', d1, d2] => do
      let dv ← dateVal y1 y2 y3 y4 m1 m2 d1 d2
      some (dv * 86400)
  | [y1, y2, y3, y4, '-', m1, m2, '-', d1, d2, 'T',
     h1, h2, ':', mi1, mi2, ':', s1, s2,
     '+', '0', '0', ':', '0', '0'] => do
      let dv ← dateVal y1 y2 y3 y4 m1 m2 d1 d2
      let tv ← timeVal h1 h2 mi1 mi2 s1 s2
      some (dv * 86400 + tv)
  | _ => none

namespace APISync

/-- timestamp_str.replace of the single-character pattern Z by +00:00,
written out over the characters. -/
def replaceZ (s : String) : String :=
  String.join (s.toList.map (fun c => if c = 'Z' then "+00:00" else String.singleton c))

/-- APIIntersectionSync._parse_timestamp: replace Z with +00:00, parse,
and return 0.0 on any failure (the bare except catches everything,
including the AttributeError a non-string argument would raise). -/
def parse_timestamp (ts : String) : Nat :=
  match fromisoformat (replaceZ ts) with
  | some v => v
  | none => 0

/-- The per-resource-type contents of one MockAPIServer: the list of
payload dicts server.data[resource_type]. -/
abbrev Store := List Payload

/-- record["id"]: the record's identity key. The program's records carry
their id as a string field; a payload without one would raise KeyError
in Python and is modelled with the empty-string key. -/
def payloadId (p : Payload) : String :=
  match pget p "id" with
  | some (JValue.prim (JPrim.str s)) => s
  | _ => ""

/-- record.get("last_login", record.get("created_at", "")). A present
non-string value would make _parse_timestamp raise internally, which its
bare except maps to 0.0 — the same outcome the unparsable empty string
yields here. -/
def lastModifiedOf (p : Payload) : String :=
  match pget p "last_login" with
  | some (JValue.prim (JPrim.str s)) => s
  | some _ => ""
  | none =>
    match pget p "created_at" with
    | some (JValue.prim (JPrim.str s)) => s
    | some _ => ""
    | none => ""

/-- Assignment d[k] = v on an insertion-ordered Python dict: overwrite in
place if the key exists, else append the new entry. -/
def dictInsert (m : List (String × APIRecord)) (k : String) (v : APIRecord) :
    List (String × APIRecord) :=
  if m.any (fun e => e.1 = k) then
    m.map (fun e => if e.1 = k then (k, v) else e)
  else
    m ++ [(k, v)]

/-- The dict comprehension of scan_intersections building id → APIRecord
from one side's store. -/
def buildRecords (src : String) (store : Store) : List (String × APIRecord) :=
  store.foldl
    (fun m p => dictInsert m (payloadId p)
      (APIRecord.make (payloadId p) p (lastModifiedOf p) src)) []

/-- Dict lookup d[k]. -/
def recLookup (m : List (String × APIRecord)) (k : String) : Option APIRecord :=
  (m.find? (fun e => e.1 = k)).map (fun e => e.2)

/-- Dict keys, in insertion order. -/
def mkeys (m : List (String × APIRecord)) : List String :=
  m.map (fun e => e.1)

/-- The per-resource-type entry scan_intersections stores under
intersections[resource_type]. -/
structure Intersections where
  common_records : List String
  api1_only : List String
  api2_only : List String
  api1_data : List (String × APIRecord)
  api2_data : List (String × APIRecord)
deriving DecidableEq

/-- APIIntersectionSync.scan_intersections for one resource type.
Python's set difference and intersection fix no enumeration order
(CPython iterates sets in hash-dependent order); the model enumerates
each result set in one admissible order, that of the side it filters. -/
def scan_intersections (store1 store2 : Store) : Intersections :=
  let m1 := buildRecords "API-1" store1
  let m2 := buildRecords "API-2" store2
  { common_records := (mkeys m1).filter (fun k => (mkeys m2).contains k)
    api1_only := (mkeys m1).filter (fun k => ¬ (mkeys m2).contains k)
    api2_only := (mkeys m2).filter (fun k => ¬ (mkeys m1).contains k)
    api1_data := m1
    api2_data := m2 }

/-- APIIntersectionSync.detect_conflicts for one resource type: a
conflict tuple for every common key whose two checksums differ,
in the enumeration order of common_records. -/
def detect_conflicts (ints : Intersections) : List (String × APIRecord × APIRecord) :=
  ints.common_records.filterMap (fun k =>
    match recLookup ints.api1_data k, recLookup ints.api2_data k with
    | some r1, some r2 =>
        if r1.checksum ≠ r2.checksum then some (k, r1, r2) else none
    | _, _ => none)

/-- The stats dict of sync_intersections. -/
structure Stats where
  updated : Nat
  created : Nat
  errors : Nat
  skipped : Nat
deriving DecidableEq, Repr

def Stats.zero : Stats := ⟨0, 0, 0, 0⟩

/-- Mutable state of a sync run: the counters plus the two servers'
stores for the processed resource type. -/
structure SyncState where
  stats : Stats
  api1 : Store
  api2 : Store
deriving DecidableEq

/-- The membership test record.id not in target_api.data[resource_type]:
the left operand is a str and the list elements are dicts, so the ==
comparison is False against every element and the test never finds the
id, whatever the store contains. -/
def strMemPayloadList (i : String) (store : Store) : Bool :=
  store.any (fun _ => false)

/-- The else branch of _update_api_record: replace the first payload
whose id matches, then break. -/
def replaceById : Store → APIRecord → Store
  | [], _ => []
  | p :: ps, rec =>
      if payloadId p = rec.id then rec.data :: ps else p :: replaceById ps rec

/-- APIIntersectionSync._update_api_record. -/
def update_api_record (store : Store) (rec : APIRecord) : Store :=
  if ¬ strMemPayloadList rec.id store then
    store ++ [rec.data]
  else
    replaceById store rec

/-- Failure injection for _update_api_record: fails r.id = true means
the write of record r raises, exercising the except branches; noFail
injects no failures. -/
abbrev FailSpec := String → Bool

def noFail : FailSpec := fun _ => false

/-- Body of the conflict-resolution loop of sync_intersections, for one
conflict tuple. Unrecognized strategy names fall through every branch
and leave state and counters untouched. -/
def resolveConflict (strategy : String) (fails : FailSpec) (st : SyncState)
    (c : String × APIRecord × APIRecord) : SyncState :=
  let r1 := c.2.1
  let r2 := c.2.2
  if strategy = "latest_wins" then
    if parse_timestamp r2.last_modified < parse_timestamp r1.last_modified then
      if fails r1.id then
        { st with stats := { st.stats with errors := st.stats.errors + 1 } }
      else
        { st with api2 := update_api_record st.api2 r1,
                  stats := { st.stats with updated := st.stats.updated + 1 } }
    else
      { st with stats := { st.stats with skipped := st.stats.skipped + 1 } }
  else if strategy = "api1_wins" then
    if fails r1.id then
      { st with stats := { st.stats with errors := st.stats.errors + 1 } }
    else
      { st with api2 := update_api_record st.api2 r1,
                stats := { st.stats with updated := st.stats.updated + 1 } }
  else if strategy = "api2_wins" then
    if fails r2.id then
      { st with stats := { st.stats with errors := st.stats.errors + 1 } }
    else
      { st with api1 := update_api_record st.api1 r2,
                stats := { st.stats with updated := st.stats.updated + 1 } }
  else
    st

/-- Body of the loop creating api1-only records in API-2. A KeyError on
the snapshot lookup would be caught by the same except, hence the none
branch also counts an error (it is unreachable for scan output). -/
def createInApi2 (ints : Intersections) (fails : FailSpec) (st : SyncState)
    (k : String) : SyncState :=
  match recLookup ints.api1_data k with
  | some rec =>
      if fails rec.id then
        { st with stats := { st.stats with errors := st.stats.errors + 1 } }
      else
        { st with api2 := update_api_record st.api2 rec,
                  stats := { st.stats with created := st.stats.created + 1 } }
  | none => { st with stats := { st.stats with errors := st.stats.errors + 1 } }

/-- Body of the loop creating api2-only records in API-1. -/
def createInApi1 (ints : Intersections) (fails : FailSpec) (st : SyncState)
    (k : String) : SyncState :=
  match recLookup ints.api2_data k with
  | some rec =>
      if fails rec.id then
        { st with stats := { st.stats with errors := st.stats.errors + 1 } }
      else
        { st with api1 := update_api_record st.api1 rec,
                  stats := { st.stats with created := st.stats.created + 1 } }
  | none => { st with stats := { st.stats with errors := st.stats.errors + 1 } }

/-- APIIntersectionSync.sync_intersections for one resource type:
resolve the conflicts under the strategy, then propagate api1-only and
api2-only records unconditionally. -/
def sync_intersections (store1 store2 : Store) (ints : Intersections)
    (conflicts : List (String × APIRecord × APIRecord))
    (strategy : String) (fails : FailSpec) : SyncState :=
  let st0 : SyncState := ⟨Stats.zero, store1, store2⟩
  let st1 := conflicts.foldl (resolveConflict strategy fails) st0
  let st2 := ints.api1_only.foldl (createInApi2 ints fails) st1
  ints.api2_only.foldl (createInApi1 ints fails) st2

/-- One full scan → detect → resolve run on one resource type. -/
def runSync (store1 store2 : Store) (strategy : String) (fails : FailSpec) : SyncState :=
  let ints := scan_intersections store1 store2
  let conflicts := detect_conflicts ints
  sync_intersections store1 store2 ints conflicts strategy fails

end APISync

namespace DBSync

/-- One row of the users table: the columns the sync reads and writes.
With id INTEGER PRIMARY KEY the id is the rowid, so the SELECT without
ORDER BY returns rows in id order and INSERT OR REPLACE keeps a replaced
row in place. -/
structure Row where
  id : Int
  name : String
  email : String
  phone : String
  last_updated : String
deriving DecidableEq, Repr

/-- Record.calculate_checksum: md5 of the pipe-joined fields, modelled
by the joined string itself (see the header note on md5). -/
def calculate_checksum (name email phone last_updated : String) : String :=
  name ++ "|" ++ email ++ "|" ++ phone ++ "|" ++ last_updated

/-- The Record dataclass; __post_init__ fills in the checksum. -/
structure Record where
  id : Int
  name : String
  email : String
  phone : String
  last_updated : String
  checksum : String
deriving DecidableEq, Repr

/-- Record construction as _load_records performs it: the checksum is
computed from the loaded columns. -/
def Record.make (r : Row) : Record :=
  ⟨r.id, r.name, r.email, r.phone, r.last_updated,
    calculate_checksum r.name r.email r.phone r.last_updated⟩

/-- The row a record writes back. -/
def Record.toRow (r : Record) : Row :=
  ⟨r.id, r.name, r.email, r.phone, r.last_updated⟩

/-- DatabaseIntersectionSync._load_records on a table state. -/
def load_records (db : List Row) : List Record :=
  db.map Record.make

/-- The structure scan_intersections returns. The intersection dict is
kept as a list of (id, source, target) entries in key insertion order. -/
structure DBIntersections where
  source_only : List Record
  target_only : List Record
  intersection : List (Int × Record × Record)
deriving DecidableEq

/-- DatabaseIntersectionSync.scan_intersections on the two loaded record
lists. The generator expressions for "source" and "target" shadow the
comprehension variable r, so their filter r.id == r.id is trivially true
and next() returns the FIRST source record and the FIRST target record
for every common id. The guards keep the nonempty-list match exact:
an empty side makes the comprehension itself empty. -/
def scan_intersections (source_records target_records : List Record) : DBIntersections :=
  let source_ids := source_records.map (fun r => r.id)
  let target_ids := target_records.map (fun r => r.id)
  { source_only := source_records.filter (fun r => ¬ target_ids.contains r.id)
    target_only := target_records.filter (fun r => ¬ source_ids.contains r.id)
    intersection :=
      match source_records, target_records with
      | s0 :: _, t0 :: _ =>
          (source_records.filter (fun r => target_ids.contains r.id)).map
            (fun r => (r.id, s0, t0))
      | _, _ => [] }

/-- DatabaseIntersectionSync._get_changed_fields: compare the four data
columns in their fixed order. -/
def get_changed_fields (source target : Record) : List String :=
  (if source.name ≠ target.name then ["name"] else []) ++
  (if source.email ≠ target.email then ["email"] else []) ++
  (if source.phone ≠ target.phone then ["phone"] else []) ++
  (if source.last_updated ≠ target.last_updated then ["last_updated"] else [])

/-- One conflict dict of detect_conflicts. -/
structure Conflict where
  id : Int
  source : Record
  target : Record
  fields_changed : List String
deriving DecidableEq

/-- DatabaseIntersectionSync.detect_conflicts. -/
def detect_conflicts (ints : DBIntersections) : List Conflict :=
  ints.intersection.filterMap (fun e =>
    let source_record := e.2.1
    let target_record := e.2.2
    if source_record.checksum ≠ target_record.checksum then
      some ⟨e.1, source_record, target_record,
            get_changed_fields source_record target_record⟩
    else none)

/-- DatabaseIntersectionSync._update_record: UPDATE ... WHERE id=?, a
no-op when no row carries the id. -/
def update_record (db : List Row) (rec : Record) : List Row :=
  db.map (fun row => if row.id = rec.id then rec.toRow else row)

/-- DatabaseIntersectionSync._insert_record: INSERT OR REPLACE, an
upsert keyed by id. -/
def insert_record (db : List Row) (rec : Record) : List Row :=
  if db.any (fun row => row.id = rec.id) then
    db.map (fun row => if row.id = rec.id then rec.toRow else row)
  else
    db ++ [rec.toRow]

/-- The stats dict of the database sync. -/
structure DBStats where
  updated : Nat
  inserted : Nat
  errors : Nat
deriving DecidableEq, Repr

def DBStats.zero : DBStats := ⟨0, 0, 0⟩

/-- Mutable state of a database sync run: counters plus the two table
states. -/
structure DBState where
  stats : DBStats
  source : List Row
  target : List Row
deriving DecidableEq

/-- Failure injection for the database writes, keyed by record id. -/
abbrev DBFailSpec := Int → Bool

def dbNoFail : DBFailSpec := fun _ => false

/-- Body of the conflict loop of sync_intersections for one intersection
entry. The updated counter sits inside the try after the whole if/elif
chain, so it increments whenever the checksums differ and no write
raised — for an unrecognized strategy name no branch runs, nothing is
written, and the counter still increments. The latest-wins comparison
is Python string > on last_updated; latest == source_record is dataclass
equality, decided here by the same record equality. -/
def conflictStep (strategy : String) (fails : DBFailSpec) (st : DBState)
    (e : Int × Record × Record) : DBState :=
  let source_record := e.2.1
  let target_record := e.2.2
  if source_record.checksum = target_record.checksum then st
  else if strategy = "source_wins" then
    if fails source_record.id then
      { st with stats := { st.stats with errors := st.stats.errors + 1 } }
    else
      { st with target := update_record st.target source_record,
                stats := { st.stats with updated := st.stats.updated + 1 } }
  else if strategy = "target_wins" then
    if fails target_record.id then
      { st with stats := { st.stats with errors := st.stats.errors + 1 } }
    else
      { st with source := update_record st.source target_record,
                stats := { st.stats with updated := st.stats.updated + 1 } }
  else if strategy = "latest_wins" then
    let latest :=
      if pyLt target_record.last_updated source_record.last_updated then source_record
      else target_record
    if latest = source_record then
      if fails source_record.id then
        { st with stats := { st.stats with errors := st.stats.errors + 1 } }
      else
        { st with target := update_record st.target source_record,
                  stats := { st.stats with updated := st.stats.updated + 1 } }
    else
      if fails target_record.id then
        { st with stats := { st.stats with errors := st.stats.errors + 1 } }
      else
        { st with source := update_record st.source target_record,
                  stats := { st.stats with updated := st.stats.updated + 1 } }
  else
    { st with stats := { st.stats with updated := st.stats.updated + 1 } }

/-- Body of the insertion loop: source-only records into the target. -/
def insertStep (fails : DBFailSpec) (st : DBState) (record : Record) : DBState :=
  if fails record.id then
    { st with stats := { st.stats with errors := st.stats.errors + 1 } }
  else
    { st with target := insert_record st.target record,
              stats := { st.stats with inserted := st.stats.inserted + 1 } }

/-- DatabaseIntersectionSync.sync_intersections: resolve intersection
conflicts, then insert source-only records into the target. No step
propagates target-only records back into the source. -/
def sync_intersections (sourceDb targetDb : List Row) (ints : DBIntersections)
    (strategy : String) (fails : DBFailSpec) : DBState :=
  let st0 : DBState := ⟨DBStats.zero, sourceDb, targetDb⟩
  let st1 := ints.intersection.foldl (conflictStep strategy fails) st0
  ints.source_only.foldl (insertStep fails) st1

/-- One full scan → detect → resolve run of the database sync. -/
def runSync (sourceDb targetDb : List Row) (strategy : String)
    (fails : DBFailSpec) : DBState :=
  let ints := scan_intersections (load_records sourceDb) (load_records targetDb)
  sync_intersections sourceDb targetDb ints strategy fails

end DBSync

namespace APISync

/-- The last payload of a store carrying a given id, the record a Python
dict comprehension keyed by id retains. -/
def lastPayload (k : String) : Store → Option Payload
  | [] => none
  | p :: ps =>
      match lastPayload k ps with
      | some q => some q
      | none => if payloadId p = k then some p else none

/-- The APIRecord a side's scan snapshot holds for an id. -/
def snapshotRecord (src : String) (store : Store) (k : String) : Option APIRecord :=
  (lastPayload k store).map (fun p => APIRecord.make k p (lastModifiedOf p) src)

/-- The step function folded by buildRecords. -/
def buildStep (src : String) (m : List (String × APIRecord)) (p : Payload) :
    List (String × APIRecord) :=
  dictInsert m (payloadId p) (APIRecord.make (payloadId p) p (lastModifiedOf p) src)

/-- Per-key outcome of the api1-only creation loop. -/
def createOutcome2 (ints : Intersections) (fails : FailSpec) (k : String) :
    Option Payload :=
  match recLookup ints.api1_data k with
  | some rec => if fails rec.id then none else some rec.data
  | none => none

/-- Per-key failure test of the api1-only creation loop. -/
def createFails2 (ints : Intersections) (fails : FailSpec) (k : String) : Bool :=
  match recLookup ints.api1_data k with
  | some rec => fails rec.id
  | none => true

/-- Per-key outcome of the api2-only creation loop. -/
def createOutcome1 (ints : Intersections) (fails : FailSpec) (k : String) :
    Option Payload :=
  match recLookup ints.api2_data k with
  | some rec => if fails rec.id then none else some rec.data
  | none => none

/-- Per-key failure test of the api2-only creation loop. -/
def createFails1 (ints : Intersections) (fails : FailSpec) (k : String) : Bool :=
  match recLookup ints.api2_data k with
  | some rec => fails rec.id
  | none => true

end APISync

/-! Theorems. -/

namespace DBSync

/-- Ids listed by the intersection entries are exactly the common ids. -/
lemma mem_intersection_ids (src tgt : List Record) (i : Int) :
    i ∈ (scan_intersections src tgt).intersection.map (fun e => e.1) ↔
      (i ∈ src.map (fun r => r.id) ∧ i ∈ tgt.map (fun r => r.id)) := by
  cases src with
  | nil => simp [scan_intersections]
  | cons s ss =>
    cases tgt with
    | nil => simp [scan_intersections]
    | cons t ts =>
      simp only [scan_intersections, List.map_map]
      constructor
      · intro h
        simp only [List.mem_map, List.mem_filter, Function.comp] at h
        obtain ⟨r, ⟨hr, hc⟩, rfl⟩ := h
        constructor
        · exact List.mem_map_of_mem _ hr
        · simpa using hc
      · rintro ⟨h1, h2⟩
        simp only [List.mem_map] at h1
        obtain ⟨r, hr, rfl⟩ := h1
        refine List.mem_map.2 ⟨r, List.mem_filter.2 ⟨hr, ?_⟩, rfl⟩
        simpa using h2

/-- Source-only ids are the source ids missing from the target. -/
lemma mem_source_only_ids (src tgt : List Record) (i : Int) :
    i ∈ (scan_intersections src tgt).source_only.map (fun r => r.id) ↔
      (i ∈ src.map (fun r => r.id) ∧ i ∉ tgt.map (fun r => r.id)) := by
  simp only [scan_intersections, List.mem_map, List.mem_filter]
  constructor
  · rintro ⟨r, ⟨hr, hc⟩, rfl⟩
    refine ⟨⟨r, hr, rfl⟩, ?_⟩
    simpa using hc
  · rintro ⟨⟨r, hr, rfl⟩, h2⟩
    refine ⟨r, ⟨hr, ?_⟩, rfl⟩
    simpa using h2

/-- Target-only ids are the target ids missing from the source. -/
lemma mem_target_only_ids (src tgt : List Record) (i : Int) :
    i ∈ (scan_intersections src tgt).target_only.map (fun r => r.id) ↔
      (i ∈ tgt.map (fun r => r.id) ∧ i ∉ src.map (fun r => r.id)) := by
  simp only [scan_intersections, List.mem_map, List.mem_filter]
  constructor
  · rintro ⟨r, ⟨hr, hc⟩, rfl⟩
    refine ⟨⟨r, hr, rfl⟩, ?_⟩
    simpa using hc
  · rintro ⟨⟨r, hr, rfl⟩, h2⟩
    refine ⟨r, ⟨hr, ?_⟩, rfl⟩
    simpa using h2

end DBSync

namespace APISync

/-- Common keys of an API scan. -/
lemma mem_common (s1 s2 : Store) (k : String) :
    k ∈ (scan_intersections s1 s2).common_records ↔
      (k ∈ mkeys (buildRecords "API-1" s1) ∧ k ∈ mkeys (buildRecords "API-2" s2)) := by
  simp [scan_intersections, List.mem_filter]

/-- Api1-only keys of an API scan. -/
lemma mem_api1_only (s1 s2 : Store) (k : String) :
    k ∈ (scan_intersections s1 s2).api1_only ↔
      (k ∈ mkeys (buildRecords "API-1" s1) ∧ k ∉ mkeys (buildRecords "API-2" s2)) := by
  simp [scan_intersections, List.mem_filter]

/-- Api2-only keys of an API scan. -/
lemma mem_api2_only (s1 s2 : Store) (k : String) :
    k ∈ (scan_intersections s1 s2).api2_only ↔
      (k ∈ mkeys (buildRecords "API-2" s2) ∧ k ∉ mkeys (buildRecords "API-1" s1)) := by
  simp [scan_intersections, List.mem_filter]

end APISync

/-- C2 (confirmed): in both the API and the database implementation, the
scan's three key sets onlyA, onlyB and common are pairwise disjoint and
their union equals the union of the two sides' key sets. -/
theorem partition_invariant :
    (∀ (s1 s2 : APISync.Store) (k : String),
      (¬ (k ∈ (APISync.scan_intersections s1 s2).api1_only ∧
          k ∈ (APISync.scan_intersections s1 s2).api2_only)) ∧
      (¬ (k ∈ (APISync.scan_intersections s1 s2).api1_only ∧
          k ∈ (APISync.scan_intersections s1 s2).common_records)) ∧
      (¬ (k ∈ (APISync.scan_intersections s1 s2).api2_only ∧
          k ∈ (APISync.scan_intersections s1 s2).common_records)) ∧
      ((k ∈ (APISync.scan_intersections s1 s2).api1_only ∨
        k ∈ (APISync.scan_intersections s1 s2).api2_only ∨
        k ∈ (APISync.scan_intersections s1 s2).common_records) ↔
        (k ∈ APISync.mkeys (APISync.buildRecords "API-1" s1) ∨
         k ∈ APISync.mkeys (APISync.buildRecords "API-2" s2)))) ∧
    (∀ (src tgt : List DBSync.Record) (i : Int),
      (¬ (i ∈ (DBSync.scan_intersections src tgt).source_only.map (fun r => r.id) ∧
          i ∈ (DBSync.scan_intersections src tgt).target_only.map (fun r => r.id))) ∧
      (¬ (i ∈ (DBSync.scan_intersections src tgt).source_only.map (fun r => r.id) ∧
          i ∈ (DBSync.scan_intersections src tgt).intersection.map (fun e => e.1))) ∧
      (¬ (i ∈ (DBSync.scan_intersections src tgt).target_only.map (fun r => r.id) ∧
          i ∈ (DBSync.scan_intersections src tgt).intersection.map (fun e => e.1))) ∧
      ((i ∈ (DBSync.scan_intersections src tgt).source_only.map (fun r => r.id) ∨
        i ∈ (DBSync.scan_intersections src tgt).target_only.map (fun r => r.id) ∨
        i ∈ (DBSync.scan_intersections src tgt).intersection.map (fun e => e.1)) ↔
        (i ∈ src.map (fun r => r.id) ∨ i ∈ tgt.map (fun r => r.id)))) := by
  constructor
  · intro s1 s2 k
    rw [APISync.mem_common, APISync.mem_api1_only, APISync.mem_api2_only]
    tauto
  · intro src tgt i
    rw [DBSync.mem_intersection_ids, DBSync.mem_source_only_ids,
        DBSync.mem_target_only_ids]
    tauto

namespace APISync

/-- find?-cons in if form. -/
lemma find?_cons_if {α : Type} (a : α) (l : List α) (p : α → Bool) :
    (a :: l).find? p = if p a then some a else l.find? p := by
  rw [List.find?_cons]
  split <;> simp_all

/-- The overwrite map of dictInsert keeps every entry's key. -/
lemma overwrite_fst (k : String) (v : APIRecord) (e : String × APIRecord) :
    (if e.1 = k then (k, v) else e).1 = e.1 := by
  split
  · next h => rw [h]
  · rfl

/-- Keys are untouched by the overwrite map of dictInsert. -/
lemma mkeys_overwrite (m : List (String × APIRecord)) (k : String) (v : APIRecord) :
    mkeys (m.map (fun e => if e.1 = k then (k, v) else e)) = mkeys m := by
  unfold mkeys
  rw [List.map_map]
  congr 1
  funext e
  simp only [Function.comp_apply, overwrite_fst]

/-- find? over the overwrite map of dictInsert. -/
lemma find?_overwrite (m : List (String × APIRecord)) (k k' : String) (v : APIRecord) :
    List.find? (fun e => e.1 = k') (m.map (fun e => if e.1 = k then (k, v) else e)) =
      (List.find? (fun e => e.1 = k') m).map (fun e => if e.1 = k then (k, v) else e) := by
  rw [List.find?_map]
  have hp : ((fun (e : String × APIRecord) => decide (e.1 = k')) ∘
      fun e => if e.1 = k then (k, v) else e) =
      fun (e : String × APIRecord) => decide (e.1 = k') := by
    funext e
    simp only [Function.comp_apply, overwrite_fst]
  rw [hp]

/-- A key absent from a dict has no entry. -/
lemma find?_eq_none_of_not_any (m : List (String × APIRecord)) (k : String)
    (h : ¬ m.any (fun e => e.1 = k)) :
    List.find? (fun e => e.1 = k) m = none := by
  rw [List.find?_eq_none]
  intro e he
  simp only [List.any_eq_true, decide_eq_true_eq] at h
  push_neg at h
  simp [h e he]

/-- Lookup after a dict assignment d[k] = v. -/
lemma recLookup_dictInsert (m : List (String × APIRecord)) (k k' : String) (v : APIRecord) :
    recLookup (dictInsert m k v) k' = if k' = k then some v else recLookup m k' := by
  unfold dictInsert recLookup
  by_cases hmem : m.any (fun e => e.1 = k)
  · rw [if_pos hmem, find?_overwrite]
    cases hf : List.find? (fun e => e.1 = k') m with
    | none =>
      have hkk : ¬ k' = k := by
        intro hk
        subst hk
        obtain ⟨e, he, hek⟩ :
            ∃ e ∈ m, e.1 = k' := by simpa using hmem
        have := List.find?_eq_none.1 hf e he
        simp [hek] at this
      simp [hkk]
    | some e0 =>
      have he0 : e0.1 = k' := by simpa using List.find?_some hf
      by_cases hk : k' = k
      · subst hk
        simp [he0]
      · have hne : ¬ e0.1 = k := by rw [he0]; exact hk
        simp [hne, hk]
  · rw [if_neg hmem, List.find?_append]
    have hsingle : ∀ hkk : ¬ k' = k,
        List.find? (fun e => e.1 = k') [(k, v)] = none := by
      intro hkk
      rw [List.find?_eq_none]
      intro e he
      simp only [List.mem_cons, List.not_mem_nil, or_false] at he
      subst he
      simpa using fun hh : k = k' => hkk hh.symm
    by_cases hk : k' = k
    · subst hk
      rw [find?_eq_none_of_not_any m k' hmem]
      simp [find?_cons_if]
    · rw [hsingle hk]
      simp [hk]

/-- Keys after a dict assignment. -/
lemma mem_mkeys_dictInsert (m : List (String × APIRecord)) (k k' : String) (v : APIRecord) :
    k' ∈ mkeys (dictInsert m k v) ↔ (k' = k ∨ k' ∈ mkeys m) := by
  unfold dictInsert
  by_cases hmem : m.any (fun e => e.1 = k)
  · rw [if_pos hmem, mkeys_overwrite]
    have hk : k ∈ mkeys m := by
      simp only [List.any_eq_true, decide_eq_true_eq] at hmem
      obtain ⟨e, he, hek⟩ := hmem
      exact hek ▸ List.mem_map_of_mem _ he
    constructor
    · exact Or.inr
    · rintro (rfl | h)
      · exact hk
      · exact h
  · rw [if_neg hmem]
    unfold mkeys
    simp only [List.map_append, List.mem_append, List.map_cons, List.map_nil,
      List.mem_cons, List.not_mem_nil, or_false]
    tauto

/-- Nodup keys are preserved by a dict assignment. -/
lemma nodup_mkeys_dictInsert (m : List (String × APIRecord)) (k : String) (v : APIRecord)
    (h : (mkeys m).Nodup) : (mkeys (dictInsert m k v)).Nodup := by
  unfold dictInsert
  by_cases hmem : m.any (fun e => e.1 = k)
  · rw [if_pos hmem, mkeys_overwrite]
    exact h
  · rw [if_neg hmem]
    unfold mkeys at h ⊢
    rw [List.map_append]
    refine List.Nodup.append h (by simp) ?_
    intro a ha hb
    simp only [List.map_cons, List.map_nil, List.mem_cons, List.not_mem_nil, or_false] at hb
    subst hb
    simp only [List.any_eq_true, decide_eq_true_eq] at hmem
    push_neg at hmem
    simp only [List.mem_map] at ha
    obtain ⟨e, he, hek⟩ := ha
    exact hmem e he hek

end APISync

namespace APISync

lemma buildRecords_eq_foldl (src : String) (store : Store) :
    buildRecords src store = store.foldl (buildStep src) [] := rfl

/-- A found last payload carries the looked-up id. -/
lemma lastPayload_id (k : String) (l : Store) (p : Payload)
    (h : lastPayload k l = some p) : payloadId p = k := by
  induction l with
  | nil => simp [lastPayload] at h
  | cons q qs ih =>
    unfold lastPayload at h
    cases hq : lastPayload k qs with
    | some r =>
      rw [hq] at h
      have hrp : r = p := by simpa using h
      subst hrp
      exact ih hq
    | none =>
      rw [hq] at h
      by_cases hqk : payloadId q = k
      · rw [if_pos hqk] at h
        cases h
        exact hqk
      · rw [if_neg hqk] at h
        cases h

/-- Lookup in the dict built by the scan comprehension is the last store
payload with that id. -/
lemma recLookup_build_go (src : String) (k : String) :
    ∀ (l : Store) (m : List (String × APIRecord)),
      recLookup (l.foldl (buildStep src) m) k =
        match lastPayload k l with
        | some p => some (APIRecord.make (payloadId p) p (lastModifiedOf p) src)
        | none => recLookup m k := by
  intro l
  induction l with
  | nil => intro m; rfl
  | cons p ps ih =>
    intro m
    rw [List.foldl_cons, ih]
    cases hq : lastPayload k ps with
    | some r => simp [lastPayload, hq]
    | none =>
      simp only [lastPayload, hq]
      by_cases hpk : payloadId p = k
      · rw [if_pos hpk]
        unfold buildStep
        rw [recLookup_dictInsert]
        rw [if_pos hpk.symm]
      · rw [if_neg hpk]
        unfold buildStep
        rw [recLookup_dictInsert]
        rw [if_neg (fun hh => hpk hh.symm)]

/-- recLookup on the scan snapshot dict equals snapshotRecord. -/
lemma recLookup_buildRecords (src : String) (store : Store) (k : String) :
    recLookup (buildRecords src store) k = snapshotRecord src store k := by
  rw [buildRecords_eq_foldl, recLookup_build_go]
  unfold snapshotRecord
  cases hq : lastPayload k store with
  | some p => simp [lastPayload_id k store p hq]
  | none => simp [recLookup]

/-- Keys of the built dict are the payload ids of the store. -/
lemma mem_mkeys_build_go (src : String) (k : String) :
    ∀ (l : Store) (m : List (String × APIRecord)),
      (k ∈ mkeys (l.foldl (buildStep src) m) ↔
        (k ∈ mkeys m ∨ k ∈ l.map payloadId)) := by
  intro l
  induction l with
  | nil => intro m; simp
  | cons p ps ih =>
    intro m
    rw [List.foldl_cons, ih]
    unfold buildStep
    rw [mem_mkeys_dictInsert]
    simp only [List.map_cons, List.mem_cons]
    tauto

/-- Keys of the scan snapshot are the store's payload ids. -/
lemma mem_mkeys_buildRecords (src : String) (store : Store) (k : String) :
    k ∈ mkeys (buildRecords src store) ↔ k ∈ store.map payloadId := by
  rw [buildRecords_eq_foldl, mem_mkeys_build_go]
  simp [mkeys]

/-- The scan snapshot's keys are distinct. -/
lemma nodup_mkeys_build_go (src : String) :
    ∀ (l : Store) (m : List (String × APIRecord)),
      (mkeys m).Nodup → (mkeys (l.foldl (buildStep src) m)).Nodup := by
  intro l
  induction l with
  | nil => intro m h; exact h
  | cons p ps ih =>
    intro m h
    rw [List.foldl_cons]
    exact ih _ (nodup_mkeys_dictInsert _ _ _ h)

lemma nodup_mkeys_buildRecords (src : String) (store : Store) :
    (mkeys (buildRecords src store)).Nodup := by
  rw [buildRecords_eq_foldl]
  exact nodup_mkeys_build_go src store [] (by simp [mkeys])

/-- A key is in the snapshot keys exactly when snapshotRecord finds it. -/
lemma mem_mkeys_iff_snapshot (src : String) (store : Store) (k : String) :
    k ∈ mkeys (buildRecords src store) ↔ (snapshotRecord src store k).isSome := by
  rw [mem_mkeys_buildRecords]
  unfold snapshotRecord
  induction store with
  | nil => simp [lastPayload]
  | cons p ps ih =>
    simp only [List.map_cons, List.mem_cons, lastPayload]
    cases hq : lastPayload k ps with
    | some r =>
      rw [hq] at ih
      simp only [Option.map, Option.isSome_some, iff_true] at ih ⊢
      exact Or.inr ih
    | none =>
      rw [hq] at ih
      simp only [Option.map, Option.isSome_none] at ih
      by_cases hpk : payloadId p = k
      · simp [hpk]
      · simp only [if_neg hpk, Option.map, Option.isSome_none]
        constructor
        · rintro (h | h)
          · exact (hpk h.symm).elim
          · exact ih.1 h
        · intro h
          exact Bool.noConfusion h
end APISync

namespace APISync

/-- The broken membership test makes every write an append. -/
lemma update_api_record_eq_append (store : Store) (rec : APIRecord) :
    update_api_record store rec = store ++ [rec.data] := by
  simp [update_api_record, strMemPayloadList]

/-- Unrecognized strategy names leave a conflict entirely unprocessed. -/
lemma resolveConflict_unknown (s : String) (fails : FailSpec) (st : SyncState)
    (c : String × APIRecord × APIRecord)
    (h1 : s ≠ "latest_wins") (h2 : s ≠ "api1_wins") (h3 : s ≠ "api2_wins") :
    resolveConflict s fails st c = st := by
  simp [resolveConflict, h1, h2, h3]

lemma conflictFold_unknown (s : String) (fails : FailSpec)
    (cf : List (String × APIRecord × APIRecord)) (st : SyncState)
    (h1 : s ≠ "latest_wins") (h2 : s ≠ "api1_wins") (h3 : s ≠ "api2_wins") :
    cf.foldl (resolveConflict s fails) st = st := by
  induction cf generalizing st with
  | nil => rfl
  | cons c cs ih =>
    rw [List.foldl_cons, resolveConflict_unknown s fails st c h1 h2 h3]
    exact ih st

/-- The api1_wins conflict fold: every non-failing conflict appends the
API-1 record's payload to API-2 and counts an update; every failing one
counts an error; nothing else changes. -/
lemma conflictFold_api1_wins (fails : FailSpec)
    (cf : List (String × APIRecord × APIRecord)) (st : SyncState) :
    cf.foldl (resolveConflict "api1_wins" fails) st =
      ⟨⟨st.stats.updated + (cf.filter (fun c => ¬ fails c.2.1.id)).length,
        st.stats.created,
        st.stats.errors + (cf.filter (fun c => fails c.2.1.id)).length,
        st.stats.skipped⟩,
       st.api1,
       st.api2 ++ (cf.filter (fun c => ¬ fails c.2.1.id)).map (fun c => c.2.1.data)⟩ := by
  induction cf generalizing st with
  | nil => simp
  | cons c cs ih =>
    rw [List.foldl_cons, ih]
    by_cases hf : fails c.2.1.id
    · simp [resolveConflict, hf, update_api_record_eq_append, Nat.add_assoc,
        Nat.add_comm 1]
    · simp [resolveConflict, hf, update_api_record_eq_append, Nat.add_assoc,
        Nat.add_comm 1]

end APISync

namespace APISync

/-- The api2_wins conflict fold, symmetric to api1_wins. -/
lemma conflictFold_api2_wins (fails : FailSpec)
    (cf : List (String × APIRecord × APIRecord)) (st : SyncState) :
    cf.foldl (resolveConflict "api2_wins" fails) st =
      ⟨⟨st.stats.updated + (cf.filter (fun c => ¬ fails c.2.2.id)).length,
        st.stats.created,
        st.stats.errors + (cf.filter (fun c => fails c.2.2.id)).length,
        st.stats.skipped⟩,
       st.api1 ++ (cf.filter (fun c => ¬ fails c.2.2.id)).map (fun c => c.2.2.data),
       st.api2⟩ := by
  induction cf generalizing st with
  | nil => simp
  | cons c cs ih =>
    rw [List.foldl_cons, ih]
    by_cases hf : fails c.2.2.id
    · simp [resolveConflict, hf, update_api_record_eq_append, Nat.add_assoc,
        Nat.add_comm 1]
    · simp [resolveConflict, hf, update_api_record_eq_append, Nat.add_assoc,
        Nat.add_comm 1]

/-- The api1-only creation fold: each key with a non-failing snapshot
record appends that record's payload to API-2 and counts a creation;
every other key counts an error. -/
lemma createFold2_eq (ints : Intersections) (fails : FailSpec)
    (ks : List String) (st : SyncState) :
    ks.foldl (createInApi2 ints fails) st =
      ⟨⟨st.stats.updated,
        st.stats.created + (ks.filterMap (createOutcome2 ints fails)).length,
        st.stats.errors + ks.countP (createFails2 ints fails),
        st.stats.skipped⟩,
       st.api1,
       st.api2 ++ ks.filterMap (createOutcome2 ints fails)⟩ := by
  induction ks generalizing st with
  | nil => simp
  | cons k ks ih =>
    rw [List.foldl_cons, ih]
    cases hq : recLookup ints.api1_data k with
    | some rec =>
      by_cases hf : fails rec.id
      · simp [createInApi2, createOutcome2, createFails2, hq, hf,
          List.countP_cons, Nat.add_assoc, Nat.add_comm 1]
      · simp [createInApi2, createOutcome2, createFails2, hq, hf,
          update_api_record_eq_append, List.countP_cons, Nat.add_assoc,
          Nat.add_comm 1]
    | none =>
      simp [createInApi2, createOutcome2, createFails2, hq,
        List.countP_cons, Nat.add_assoc, Nat.add_comm 1]

/-- The api2-only creation fold, symmetric. -/
lemma createFold1_eq (ints : Intersections) (fails : FailSpec)
    (ks : List String) (st : SyncState) :
    ks.foldl (createInApi1 ints fails) st =
      ⟨⟨st.stats.updated,
        st.stats.created + (ks.filterMap (createOutcome1 ints fails)).length,
        st.stats.errors + ks.countP (createFails1 ints fails),
        st.stats.skipped⟩,
       st.api1 ++ ks.filterMap (createOutcome1 ints fails),
       st.api2⟩ := by
  induction ks generalizing st with
  | nil => simp
  | cons k ks ih =>
    rw [List.foldl_cons, ih]
    cases hq : recLookup ints.api2_data k with
    | some rec =>
      by_cases hf : fails rec.id
      · simp [createInApi1, createOutcome1, createFails1, hq, hf,
          List.countP_cons, Nat.add_assoc, Nat.add_comm 1]
      · simp [createInApi1, createOutcome1, createFails1, hq, hf,
          update_api_record_eq_append, List.countP_cons, Nat.add_assoc,
          Nat.add_comm 1]
    | none =>
      simp [createInApi1, createOutcome1, createFails1, hq,
        List.countP_cons, Nat.add_assoc, Nat.add_comm 1]

end APISync

/-- C5 (code_bug): _update_api_record applied to a target that already
holds the record's key appends a duplicate payload instead of
overwriting: the membership test compares the id string against the
dict elements, never matches, and the update branch is dead code, so
the target ends up with two records under the key. -/
theorem update_api_record_appends_duplicate :
    APISync.update_api_record
        [[("id", JStr "1"), ("name", JStr "Ion")]]
        (APISync.APIRecord.make "1" [("id", JStr "1"), ("name", JStr "Maria")] "" "API-1")
      = [[("id", JStr "1"), ("name", JStr "Ion")],
         [("id", JStr "1"), ("name", JStr "Maria")]] ∧
    APISync.payloadId [("id", JStr "1"), ("name", JStr "Ion")] = "1" ∧
    (APISync.update_api_record
        [[("id", JStr "1"), ("name", JStr "Ion")]]
        (APISync.APIRecord.make "1" [("id", JStr "1"), ("name", JStr "Maria")] "" "API-1")).countP
      (fun p => APISync.payloadId p == "1") = 2 :=
  ⟨rfl, rfl, rfl⟩

/-- C6 (code_bug): the generator expressions in the database scan shadow
the comprehension variable, so every intersection entry pairs the FIRST
source row with the FIRST target row; with equal first rows, a genuine
fingerprint mismatch on common id 2 produces no conflict at all. -/
theorem db_shadowed_pairing_misses_conflict :
    DBSync.detect_conflicts
        (DBSync.scan_intersections
          (DBSync.load_records
            [⟨1, "Ion", "ion@a", "07", "2023-01-01"⟩,
             ⟨2, "Maria", "maria@a", "08", "2023-01-02"⟩])
          (DBSync.load_records
            [⟨1, "Ion", "ion@a", "07", "2023-01-01"⟩,
             ⟨2, "Maria", "maria@b", "08", "2023-01-02"⟩])) = [] ∧
    (DBSync.Record.make ⟨2, "Maria", "maria@a", "08", "2023-01-02"⟩).checksum ≠
      (DBSync.Record.make ⟨2, "Maria", "maria@b", "08", "2023-01-02"⟩).checksum ∧
    (2 : Int) ∈
      (DBSync.scan_intersections
          (DBSync.load_records
            [⟨1, "Ion", "ion@a", "07", "2023-01-01"⟩,
             ⟨2, "Maria", "maria@a", "08", "2023-01-02"⟩])
          (DBSync.load_records
            [⟨1, "Ion", "ion@a", "07", "2023-01-01"⟩,
             ⟨2, "Maria", "maria@b", "08", "2023-01-02"⟩])).intersection.map
        (fun e => e.1) := by
  refine ⟨rfl, by decide, by decide⟩

/-- C7 (code_bug): detect_conflicts emits conflicts in the enumeration
order of the common-record set, which CPython iterates in hash-dependent
order and the code never sorts; an enumeration listing key 2 before
key 1 yields a conflict report that is not sorted by key. -/
theorem detect_conflicts_not_sorted :
    (APISync.detect_conflicts
        (APISync.scan_intersections
          [[("id", JStr "2"), ("v", JStr "a")], [("id", JStr "1"), ("v", JStr "a")]]
          [[("id", JStr "1"), ("v", JStr "b")], [("id", JStr "2"), ("v", JStr "b")]])).map
        (fun c => c.1) = ["2", "1"] ∧
    ¬ List.Sorted (fun a b => pyLe a b = true)
        ((APISync.detect_conflicts
          (APISync.scan_intersections
            [[("id", JStr "2"), ("v", JStr "a")], [("id", JStr "1"), ("v", JStr "a")]]
            [[("id", JStr "1"), ("v", JStr "b")], [("id", JStr "2"), ("v", JStr "b")]])).map
          (fun c => c.1)) := by
  constructor
  · rfl
  · intro h
    have h2 : List.Sorted (fun a b => pyLe a b = true) ["2", "1"] := h
    have h21 : pyLe "2" "1" = true := List.rel_of_sorted_cons h2 "1" (by simp)
    simp [pyLe, pyLt, charListLt] at h21

/-- C3 (counterexample): under latest_wins in the API implementation, a
conflict whose API-2 side has the strictly greater timestamp is merely
skipped: nothing is written to either store and no update is counted,
although the claim requires API-2's record to overwrite API-1's. -/
theorem latest_wins_newer_side_not_propagated :
    APISync.parse_timestamp "2023-01-15T10:30:00Z" <
      APISync.parse_timestamp "2023-12-01T16:20:00Z" ∧
    (APISync.detect_conflicts
      (APISync.scan_intersections
        [[("id", JStr "1"), ("last_login", JStr "2023-01-15T10:30:00Z"), ("v", JStr "a")]]
        [[("id", JStr "1"), ("last_login", JStr "2023-12-01T16:20:00Z"), ("v", JStr "b")]])).length
      = 1 ∧
    APISync.runSync
        [[("id", JStr "1"), ("last_login", JStr "2023-01-15T10:30:00Z"), ("v", JStr "a")]]
        [[("id", JStr "1"), ("last_login", JStr "2023-12-01T16:20:00Z"), ("v", JStr "b")]]
        "latest_wins" APISync.noFail
      = ⟨⟨0, 0, 0, 1⟩,
         [[("id", JStr "1"), ("last_login", JStr "2023-01-15T10:30:00Z"), ("v", JStr "a")]],
         [[("id", JStr "1"), ("last_login", JStr "2023-12-01T16:20:00Z"), ("v", JStr "b")]]⟩ := by
  refine ⟨by decide, rfl, rfl⟩

/-- C4 (counterexample): running the pipeline twice under latest_wins is
not conflict-free the second time: a conflict whose API-2 side is newer
is skipped by the first run, left in place, and re-detected by the
second run's scan. -/
theorem second_run_not_conflict_free :
    (APISync.detect_conflicts
      (APISync.scan_intersections
        (APISync.runSync
          [[("id", JStr "1"), ("last_login", JStr "2023-01-15T10:30:00Z"), ("v", JStr "a")]]
          [[("id", JStr "1"), ("last_login", JStr "2023-12-01T16:20:00Z"), ("v", JStr "b")]]
          "latest_wins" APISync.noFail).api1
        (APISync.runSync
          [[("id", JStr "1"), ("last_login", JStr "2023-01-15T10:30:00Z"), ("v", JStr "a")]]
          [[("id", JStr "1"), ("last_login", JStr "2023-12-01T16:20:00Z"), ("v", JStr "b")]]
          "latest_wins" APISync.noFail).api2)).length = 1 := rfl

/-- C10 (counterexample): in the database implementation an unrecognized
strategy name leaves both stores untouched and raises nothing, but the
updated counter still increments once per conflicting pair, so it does
not stay at zero. -/
theorem db_unknown_strategy_counts_updates :
    DBSync.runSync
        [⟨1, "Ion", "a@x", "07", "2023-01-01"⟩]
        [⟨1, "Ion", "b@x", "07", "2023-01-02"⟩]
        "a_wins" DBSync.dbNoFail
      = ⟨⟨1, 0, 0⟩,
         [⟨1, "Ion", "a@x", "07", "2023-01-01"⟩],
         [⟨1, "Ion", "b@x", "07", "2023-01-02"⟩]⟩ := rfl

namespace DBSync

/-- With an unrecognized strategy name, one conflict step writes nothing
and only bumps the updated counter when the checksums differ. -/
lemma conflictStep_unknown (s : String) (fails : DBFailSpec) (st : DBState)
    (e : Int × Record × Record)
    (h1 : s ≠ "source_wins") (h2 : s ≠ "target_wins") (h3 : s ≠ "latest_wins") :
    conflictStep s fails st e =
      if e.2.1.checksum = e.2.2.checksum then st
      else { st with stats := { st.stats with updated := st.stats.updated + 1 } } := by
  by_cases hc : e.2.1.checksum = e.2.2.checksum
  · simp [conflictStep, hc]
  · simp [conflictStep, hc, h1, h2, h3]

/-- The conflict fold under an unrecognized strategy: stores untouched,
updated bumped once per differing pair. -/
lemma dbConflictFold_unknown (s : String) (fails : DBFailSpec)
    (entries : List (Int × Record × Record)) (st : DBState)
    (h1 : s ≠ "source_wins") (h2 : s ≠ "target_wins") (h3 : s ≠ "latest_wins") :
    entries.foldl (conflictStep s fails) st =
      ⟨⟨st.stats.updated +
          entries.countP (fun e => ¬ e.2.1.checksum = e.2.2.checksum),
        st.stats.inserted, st.stats.errors⟩,
       st.source, st.target⟩ := by
  induction entries generalizing st with
  | nil => simp
  | cons e es ih =>
    rw [List.foldl_cons, conflictStep_unknown s fails st e h1 h2 h3]
    by_cases hc : e.2.1.checksum = e.2.2.checksum
    · rw [if_pos hc, ih]
      simp [List.countP_cons, hc]
    · rw [if_neg hc, ih]
      simp only [List.countP_cons]
      have : (decide ¬ e.2.1.checksum = e.2.2.checksum) = true := by simp [hc]
      rw [this]
      simp [Nat.add_assoc, Nat.add_comm 1]

/-- The failure-free insertion fold: each record upserts into the target
and counts one insertion. -/
lemma insertFold_noFail (recs : List Record) (st : DBState) :
    recs.foldl (insertStep dbNoFail) st =
      ⟨⟨st.stats.updated, st.stats.inserted + recs.length, st.stats.errors⟩,
       st.source, recs.foldl insert_record st.target⟩ := by
  induction recs generalizing st with
  | nil => simp
  | cons r rs ih =>
    rw [List.foldl_cons]
    simp only [insertStep, dbNoFail]
    rw [ih]
    simp [Nat.add_assoc, Nat.add_comm 1]

end DBSync

namespace APISync

/-- Keys listed as api1-only have a snapshot record on the API-1 side. -/
lemma api1_only_lookup_isSome (a1 a2 : Store) (k : String)
    (h : k ∈ (scan_intersections a1 a2).api1_only) :
    (recLookup (scan_intersections a1 a2).api1_data k).isSome := by
  have hk : k ∈ mkeys (buildRecords "API-1" a1) := ((mem_api1_only a1 a2 k).1 h).1
  have := (mem_mkeys_iff_snapshot "API-1" a1 k).1 hk
  simpa [scan_intersections, recLookup_buildRecords] using this

/-- Keys listed as api2-only have a snapshot record on the API-2 side. -/
lemma api2_only_lookup_isSome (a1 a2 : Store) (k : String)
    (h : k ∈ (scan_intersections a1 a2).api2_only) :
    (recLookup (scan_intersections a1 a2).api2_data k).isSome := by
  have hk : k ∈ mkeys (buildRecords "API-2" a2) := ((mem_api2_only a1 a2 k).1 h).1
  have := (mem_mkeys_iff_snapshot "API-2" a2 k).1 hk
  simpa [scan_intersections, recLookup_buildRecords] using this

/-- Every element mapped to some: the filterMap keeps the whole length. -/
lemma length_filterMap_of_isSome {α β : Type} (f : α → Option β) (l : List α)
    (h : ∀ a ∈ l, (f a).isSome) : (l.filterMap f).length = l.length := by
  induction l with
  | nil => rfl
  | cons a as ih =>
    rw [List.filterMap_cons]
    cases hf : f a with
    | none =>
      have := h a (by simp)
      rw [hf] at this
      simp at this
    | some b =>
      simp only [List.length_cons]
      rw [ih (fun x hx => h x (by simp [hx]))]

end APISync

namespace APISync

lemma createOutcome2_isSome_of_lookup (ints : Intersections) (k : String)
    (h : (recLookup ints.api1_data k).isSome) :
    (createOutcome2 ints noFail k).isSome := by
  cases hq : recLookup ints.api1_data k with
  | none => rw [hq] at h; simp at h
  | some rec => simp [createOutcome2, hq, noFail]

lemma createOutcome1_isSome_of_lookup (ints : Intersections) (k : String)
    (h : (recLookup ints.api2_data k).isSome) :
    (createOutcome1 ints noFail k).isSome := by
  cases hq : recLookup ints.api2_data k with
  | none => rw [hq] at h; simp at h
  | some rec => simp [createOutcome1, hq, noFail]

lemma createFails2_false_of_lookup (ints : Intersections) (k : String)
    (h : (recLookup ints.api1_data k).isSome) :
    createFails2 ints noFail k = false := by
  cases hq : recLookup ints.api1_data k with
  | none => rw [hq] at h; simp at h
  | some rec => simp [createFails2, hq, noFail]

lemma createFails1_false_of_lookup (ints : Intersections) (k : String)
    (h : (recLookup ints.api2_data k).isSome) :
    createFails1 ints noFail k = false := by
  cases hq : recLookup ints.api2_data k with
  | none => rw [hq] at h; simp at h
  | some rec => simp [createFails1, hq, noFail]

/-- The failure-free API sync, written through the fold lemmas: the
conflict phase contributes its writes, then both only-lists are
propagated in full. -/
lemma sync_noFail_stats (a1 a2 : Store)
    (cf : List (String × APIRecord × APIRecord)) (s : String) :
    ∀ st1 : SyncState,
      st1 = cf.foldl (resolveConflict s noFail) ⟨Stats.zero, a1, a2⟩ →
      sync_intersections a1 a2 (scan_intersections a1 a2) cf s noFail =
        ⟨⟨st1.stats.updated,
          st1.stats.created + (scan_intersections a1 a2).api1_only.length +
            (scan_intersections a1 a2).api2_only.length,
          st1.stats.errors,
          st1.stats.skipped⟩,
         st1.api1 ++
           ((scan_intersections a1 a2).api2_only.filterMap
             (createOutcome1 (scan_intersections a1 a2) noFail)),
         st1.api2 ++
           ((scan_intersections a1 a2).api1_only.filterMap
             (createOutcome2 (scan_intersections a1 a2) noFail))⟩ := by
  intro st1 hst1
  have hlen2 : ((scan_intersections a1 a2).api1_only.filterMap
      (createOutcome2 (scan_intersections a1 a2) noFail)).length =
      (scan_intersections a1 a2).api1_only.length :=
    length_filterMap_of_isSome _ _ (fun k hk =>
      createOutcome2_isSome_of_lookup _ _ (api1_only_lookup_isSome a1 a2 k hk))
  have hlen1 : ((scan_intersections a1 a2).api2_only.filterMap
      (createOutcome1 (scan_intersections a1 a2) noFail)).length =
      (scan_intersections a1 a2).api2_only.length :=
    length_filterMap_of_isSome _ _ (fun k hk =>
      createOutcome1_isSome_of_lookup _ _ (api2_only_lookup_isSome a1 a2 k hk))
  have hcnt2 : (scan_intersections a1 a2).api1_only.countP
      (createFails2 (scan_intersections a1 a2) noFail) = 0 := by
    rw [List.countP_eq_zero]
    intro k hk
    simp [createFails2_false_of_lookup _ _ (api1_only_lookup_isSome a1 a2 k hk)]
  have hcnt1 : (scan_intersections a1 a2).api2_only.countP
      (createFails1 (scan_intersections a1 a2) noFail) = 0 := by
    rw [List.countP_eq_zero]
    intro k hk
    simp [createFails1_false_of_lookup _ _ (api2_only_lookup_isSome a1 a2 k hk)]
  subst hst1
  simp only [sync_intersections]
  rw [createFold2_eq, createFold1_eq]
  simp only [hcnt2, hcnt1, hlen2, hlen1, Nat.add_zero, Nat.add_assoc]

end APISync

/-- C10 (amended): with a strategy name outside the recognized set, the
API implementation silently skips every conflict: the run equals the run
given no conflicts at all, no store is written for common keys, nothing
raises, updated/skipped/errors stay zero and only-key propagation still
runs in full. The database implementation likewise writes nothing for
common keys and raises nothing, but its updated counter still increments
once per conflicting pair while the source-only insertions proceed. -/
theorem unknown_strategy_behavior (s : String)
    (h1 : s ≠ "latest_wins") (h2 : s ≠ "api1_wins") (h3 : s ≠ "api2_wins")
    (h4 : s ≠ "source_wins") (h5 : s ≠ "target_wins") :
    (∀ (a1 a2 : APISync.Store)
        (cf : List (String × APISync.APIRecord × APISync.APIRecord)),
      APISync.sync_intersections a1 a2 (APISync.scan_intersections a1 a2) cf s
          APISync.noFail =
        APISync.sync_intersections a1 a2 (APISync.scan_intersections a1 a2) [] s
          APISync.noFail ∧
      (APISync.sync_intersections a1 a2 (APISync.scan_intersections a1 a2) cf s
          APISync.noFail).stats =
        ⟨0, (APISync.scan_intersections a1 a2).api1_only.length +
              (APISync.scan_intersections a1 a2).api2_only.length, 0, 0⟩) ∧
    (∀ (src tgt : List DBSync.Row),
      DBSync.runSync src tgt s DBSync.dbNoFail =
        ⟨⟨(DBSync.scan_intersections (DBSync.load_records src)
              (DBSync.load_records tgt)).intersection.countP
            (fun e => ¬ e.2.1.checksum = e.2.2.checksum),
          (DBSync.scan_intersections (DBSync.load_records src)
              (DBSync.load_records tgt)).source_only.length, 0⟩,
         src,
         (DBSync.scan_intersections (DBSync.load_records src)
             (DBSync.load_records tgt)).source_only.foldl DBSync.insert_record tgt⟩) := by
  constructor
  · intro a1 a2 cf
    have hfold : cf.foldl (APISync.resolveConflict s APISync.noFail)
        ⟨APISync.Stats.zero, a1, a2⟩ = ⟨APISync.Stats.zero, a1, a2⟩ :=
      APISync.conflictFold_unknown s APISync.noFail cf _ h1 h2 h3
    have hfold0 : ([] : List (String × APISync.APIRecord × APISync.APIRecord)).foldl
        (APISync.resolveConflict s APISync.noFail)
        ⟨APISync.Stats.zero, a1, a2⟩ = ⟨APISync.Stats.zero, a1, a2⟩ := rfl
    have L := APISync.sync_noFail_stats a1 a2 cf s _ hfold.symm
    have L0 := APISync.sync_noFail_stats a1 a2 [] s _ hfold0.symm
    rw [L, L0]
    refine ⟨rfl, ?_⟩
    simp [APISync.Stats.zero]
  · intro src tgt
    show DBSync.sync_intersections src tgt _ s DBSync.dbNoFail = _
    simp only [DBSync.sync_intersections]
    rw [DBSync.dbConflictFold_unknown s DBSync.dbNoFail _ _ h4 h5 h1,
        DBSync.insertFold_noFail]
    simp [DBSync.DBStats.zero]

/-- Witness for the unknown-strategy theorem at the spec's own strategy
name a_wins and a one-row-per-side database. -/
theorem unknown_strategy_behavior_witness :
    (("a_wins" : String) ≠ "latest_wins" ∧ ("a_wins" : String) ≠ "api1_wins" ∧
     ("a_wins" : String) ≠ "api2_wins" ∧ ("a_wins" : String) ≠ "source_wins" ∧
     ("a_wins" : String) ≠ "target_wins") ∧
    DBSync.runSync
        [⟨1, "Ana", "a@x", "07", "2023-01-01"⟩]
        [⟨1, "Ana", "b@x", "07", "2023-01-02"⟩]
        "a_wins" DBSync.dbNoFail
      = ⟨⟨1, 0, 0⟩,
         [⟨1, "Ana", "a@x", "07", "2023-01-01"⟩],
         [⟨1, "Ana", "b@x", "07", "2023-01-02"⟩]⟩ := by
  refine ⟨⟨by decide, by decide, by decide, by decide, by decide⟩, ?_⟩
  have h := (unknown_strategy_behavior "a_wins" (by decide) (by decide) (by decide)
      (by decide) (by decide)).2
    [⟨1, "Ana", "a@x", "07", "2023-01-01"⟩]
    [⟨1, "Ana", "b@x", "07", "2023-01-02"⟩]
  exact h.trans (by rfl)

/-- C3 (amended): per-conflict latest-wins semantics. In the API
implementation a conflict is resolved by writing API-1's record into
API-2 exactly when API-1's parsed timestamp is strictly greater;
otherwise — API-2 newer or a tie — it is skipped and counted as skipped,
with no write in either direction. In the database implementation the
source record overwrites the target exactly when source.last_updated is
strictly greater as a Python string; otherwise — including ties — the
target record overwrites the source. Each conflict's outcome depends
only on its two records, never on map or iteration order. -/
theorem latest_wins_per_conflict :
    (∀ (st : APISync.SyncState) (c : String × APISync.APIRecord × APISync.APIRecord),
      APISync.resolveConflict "latest_wins" APISync.noFail st c =
        if APISync.parse_timestamp c.2.2.last_modified <
            APISync.parse_timestamp c.2.1.last_modified then
          ⟨⟨st.stats.updated + 1, st.stats.created, st.stats.errors, st.stats.skipped⟩,
           st.api1, st.api2 ++ [c.2.1.data]⟩
        else
          ⟨⟨st.stats.updated, st.stats.created, st.stats.errors, st.stats.skipped + 1⟩,
           st.api1, st.api2⟩) ∧
    (∀ (st : DBSync.DBState) (e : Int × DBSync.Record × DBSync.Record),
      e.2.1.checksum ≠ e.2.2.checksum →
      DBSync.conflictStep "latest_wins" DBSync.dbNoFail st e =
        if pyLt e.2.2.last_updated e.2.1.last_updated then
          ⟨⟨st.stats.updated + 1, st.stats.inserted, st.stats.errors⟩,
           st.source, DBSync.update_record st.target e.2.1⟩
        else
          ⟨⟨st.stats.updated + 1, st.stats.inserted, st.stats.errors⟩,
           DBSync.update_record st.source e.2.2, st.target⟩) := by
  constructor
  · intro st c
    by_cases hlt : APISync.parse_timestamp c.2.2.last_modified <
        APISync.parse_timestamp c.2.1.last_modified
    · simp [APISync.resolveConflict, hlt, APISync.noFail,
        APISync.update_api_record_eq_append]
    · simp [APISync.resolveConflict, hlt, APISync.noFail]
  · intro st e h
    have hts : e.2.2 ≠ e.2.1 := fun heq => h (congrArg DBSync.Record.checksum heq).symm
    by_cases hlt : pyLt e.2.2.last_updated e.2.1.last_updated = true
    · simp [DBSync.conflictStep, h, hlt, DBSync.dbNoFail]
    · simp [DBSync.conflictStep, h, hlt, DBSync.dbNoFail, hts]

/-- Witness for the per-conflict latest-wins semantics: a strictly newer
API-1 record is written into API-2, and a database tie resolves by
overwriting the source with the target record. -/
theorem latest_wins_per_conflict_witness :
    APISync.resolveConflict "latest_wins" APISync.noFail
        ⟨APISync.Stats.zero, [], []⟩
        ("1",
         APISync.APIRecord.make "1" [("id", JStr "1"), ("v", JStr "a")]
           "2023-12-01T16:20:00Z" "API-1",
         APISync.APIRecord.make "1" [("id", JStr "1"), ("v", JStr "b")]
           "2023-01-15T10:30:00Z" "API-2")
      = ⟨⟨1, 0, 0, 0⟩, [], [[("id", JStr "1"), ("v", JStr "a")]]⟩ ∧
    (DBSync.Record.make ⟨1, "Ana", "a@x", "07", "2023-05-05"⟩).checksum ≠
      (DBSync.Record.make ⟨1, "Bob", "b@x", "07", "2023-05-05"⟩).checksum ∧
    DBSync.conflictStep "latest_wins" DBSync.dbNoFail
        ⟨DBSync.DBStats.zero,
         [⟨1, "Ana", "a@x", "07", "2023-05-05"⟩],
         [⟨1, "Bob", "b@x", "07", "2023-05-05"⟩]⟩
        (1, DBSync.Record.make ⟨1, "Ana", "a@x", "07", "2023-05-05"⟩,
            DBSync.Record.make ⟨1, "Bob", "b@x", "07", "2023-05-05"⟩)
      = ⟨⟨1, 0, 0⟩, [⟨1, "Bob", "b@x", "07", "2023-05-05"⟩],
         [⟨1, "Bob", "b@x", "07", "2023-05-05"⟩]⟩ := by
  refine ⟨?_, by decide, ?_⟩
  · exact (latest_wins_per_conflict.1 _ _).trans (by rfl)
  · exact (latest_wins_per_conflict.2 _ _ (by decide)).trans (by rfl)

namespace APISync

/-- Failing creations contribute nothing: the outcomes with failures are
the failure-free outcomes of the keys whose apply does not fail. -/
lemma filterMap_createOutcome2_fails (ints : Intersections) (fails : FailSpec)
    (ks : List String) :
    ks.filterMap (createOutcome2 ints fails) =
      (ks.filter (fun k => createFails2 ints fails k = false)).filterMap
        (createOutcome2 ints noFail) := by
  induction ks with
  | nil => rfl
  | cons k ks ih =>
    rw [List.filterMap_cons, List.filter_cons]
    cases hq : recLookup ints.api1_data k with
    | none =>
      have h1 : createOutcome2 ints fails k = none := by simp [createOutcome2, hq]
      have h2 : createFails2 ints fails k = true := by
        simp [createFails2, hq]
      rw [h1, h2]
      simpa using ih
    | some rec =>
      by_cases hf : fails rec.id
      · have h1 : createOutcome2 ints fails k = none := by
          simp [createOutcome2, hq, hf]
        have h2 : createFails2 ints fails k = true := by
          simp [createFails2, hq, hf]
        rw [h1, h2]
        simpa using ih
      · have h1 : createOutcome2 ints fails k = some rec.data := by
          simp [createOutcome2, hq, hf]
        have h2 : createFails2 ints fails k = false := by
          simp [createFails2, hq, hf]
        rw [h1, h2]
        have h3 : createOutcome2 ints noFail k = some rec.data := by
          simp [createOutcome2, hq, noFail]
        simp only [if_true, decide_eq_true_eq, List.filterMap_cons, h3]
        rw [ih]

/-- Symmetric statement for the api2-only loop. -/
lemma filterMap_createOutcome1_fails (ints : Intersections) (fails : FailSpec)
    (ks : List String) :
    ks.filterMap (createOutcome1 ints fails) =
      (ks.filter (fun k => createFails1 ints fails k = false)).filterMap
        (createOutcome1 ints noFail) := by
  induction ks with
  | nil => rfl
  | cons k ks ih =>
    rw [List.filterMap_cons, List.filter_cons]
    cases hq : recLookup ints.api2_data k with
    | none =>
      have h1 : createOutcome1 ints fails k = none := by simp [createOutcome1, hq]
      have h2 : createFails1 ints fails k = true := by
        simp [createFails1, hq]
      rw [h1, h2]
      simpa using ih
    | some rec =>
      by_cases hf : fails rec.id
      · have h1 : createOutcome1 ints fails k = none := by
          simp [createOutcome1, hq, hf]
        have h2 : createFails1 ints fails k = true := by
          simp [createFails1, hq, hf]
        rw [h1, h2]
        simpa using ih
      · have h1 : createOutcome1 ints fails k = some rec.data := by
          simp [createOutcome1, hq, hf]
        have h2 : createFails1 ints fails k = false := by
          simp [createFails1, hq, hf]
        rw [h1, h2]
        have h3 : createOutcome1 ints noFail k = some rec.data := by
          simp [createOutcome1, hq, noFail]
        simp only [if_true, decide_eq_true_eq, List.filterMap_cons, h3]
        rw [ih]

end APISync

namespace APISync

/-- A key whose creation attempt does not fail has a snapshot record. -/
lemma lookup_isSome_of_createFails2_false (ints : Intersections) (fails : FailSpec)
    (k : String) (h : createFails2 ints fails k = false) :
    (recLookup ints.api1_data k).isSome := by
  cases hq : recLookup ints.api1_data k with
  | none => rw [createFails2, hq] at h; simp at h
  | some rec => simp

lemma lookup_isSome_of_createFails1_false (ints : Intersections) (fails : FailSpec)
    (k : String) (h : createFails1 ints fails k = false) :
    (recLookup ints.api2_data k).isSome := by
  cases hq : recLookup ints.api2_data k with
  | none => rw [createFails1, hq] at h; simp at h
  | some rec => simp

end APISync

/-- C9 (confirmed; shown on the API implementation with the api1_wins
strategy — the per-record try/except is identical in the other branches
and in the database implementation): injected apply failures change
nothing but their own records. The run's result is the failure-free run
on the non-failing work: stores receive exactly the non-failing writes,
every remaining record is still processed, the error counter equals the
number of failed applies, and the other counters match the failure-free
run, whose own error counter is zero. -/
theorem apply_failure_isolation (a1 a2 : APISync.Store)
    (ints : APISync.Intersections)
    (cf : List (String × APISync.APIRecord × APISync.APIRecord))
    (fails : APISync.FailSpec) :
    APISync.sync_intersections a1 a2 ints cf "api1_wins" fails =
      ⟨⟨(cf.filter (fun c => ¬ fails c.2.1.id)).length,
        (ints.api1_only.filterMap (APISync.createOutcome2 ints fails)).length +
          (ints.api2_only.filterMap (APISync.createOutcome1 ints fails)).length,
        (cf.filter (fun c => fails c.2.1.id)).length +
          ints.api1_only.countP (APISync.createFails2 ints fails) +
          ints.api2_only.countP (APISync.createFails1 ints fails),
        0⟩,
       a1 ++ ints.api2_only.filterMap (APISync.createOutcome1 ints fails),
       a2 ++ (cf.filter (fun c => ¬ fails c.2.1.id)).map (fun c => c.2.1.data) ++
         ints.api1_only.filterMap (APISync.createOutcome2 ints fails)⟩ ∧
    APISync.sync_intersections a1 a2 ints cf "api1_wins" fails =
      ⟨⟨(APISync.sync_intersections a1 a2
            { ints with
                api1_only := ints.api1_only.filter
                  (fun k => APISync.createFails2 ints fails k = false),
                api2_only := ints.api2_only.filter
                  (fun k => APISync.createFails1 ints fails k = false) }
            (cf.filter (fun c => ¬ fails c.2.1.id)) "api1_wins"
            APISync.noFail).stats.updated,
        (APISync.sync_intersections a1 a2
            { ints with
                api1_only := ints.api1_only.filter
                  (fun k => APISync.createFails2 ints fails k = false),
                api2_only := ints.api2_only.filter
                  (fun k => APISync.createFails1 ints fails k = false) }
            (cf.filter (fun c => ¬ fails c.2.1.id)) "api1_wins"
            APISync.noFail).stats.created,
        (cf.filter (fun c => fails c.2.1.id)).length +
          ints.api1_only.countP (APISync.createFails2 ints fails) +
          ints.api2_only.countP (APISync.createFails1 ints fails),
        0⟩,
       (APISync.sync_intersections a1 a2
           { ints with
               api1_only := ints.api1_only.filter
                 (fun k => APISync.createFails2 ints fails k = false),
               api2_only := ints.api2_only.filter
                 (fun k => APISync.createFails1 ints fails k = false) }
           (cf.filter (fun c => ¬ fails c.2.1.id)) "api1_wins" APISync.noFail).api1,
       (APISync.sync_intersections a1 a2
           { ints with
               api1_only := ints.api1_only.filter
                 (fun k => APISync.createFails2 ints fails k = false),
               api2_only := ints.api2_only.filter
                 (fun k => APISync.createFails1 ints fails k = false) }
           (cf.filter (fun c => ¬ fails c.2.1.id)) "api1_wins" APISync.noFail).api2⟩ ∧
    (APISync.sync_intersections a1 a2
        { ints with
            api1_only := ints.api1_only.filter
              (fun k => APISync.createFails2 ints fails k = false),
            api2_only := ints.api2_only.filter
              (fun k => APISync.createFails1 ints fails k = false) }
        (cf.filter (fun c => ¬ fails c.2.1.id)) "api1_wins"
        APISync.noFail).stats.errors = 0 := by
  have hout2 := APISync.filterMap_createOutcome2_fails ints fails ints.api1_only
  have hout1 := APISync.filterMap_createOutcome1_fails ints fails ints.api2_only
  have hcfF : (cf.filter (fun c => ¬ fails c.2.1.id)).filter
      (fun c => ¬ APISync.noFail c.2.1.id) = cf.filter (fun c => ¬ fails c.2.1.id) := by
    simp [APISync.noFail]
  have hcfE : (cf.filter (fun c => ¬ fails c.2.1.id)).filter
      (fun c => APISync.noFail c.2.1.id) = [] := by
    simp [APISync.noFail]
  have hc2 : (ints.api1_only.filter
      (fun k => APISync.createFails2 ints fails k = false)).countP
      (APISync.createFails2 ints APISync.noFail) = 0 := by
    rw [List.countP_eq_zero]
    intro k hk
    have hk2 := (List.mem_filter.1 hk).2
    have hsome := APISync.lookup_isSome_of_createFails2_false ints fails k
      (by simpa using hk2)
    simp [APISync.createFails2_false_of_lookup ints k hsome]
  have hc1 : (ints.api2_only.filter
      (fun k => APISync.createFails1 ints fails k = false)).countP
      (APISync.createFails1 ints APISync.noFail) = 0 := by
    rw [List.countP_eq_zero]
    intro k hk
    have hk2 := (List.mem_filter.1 hk).2
    have hsome := APISync.lookup_isSome_of_createFails1_false ints fails k
      (by simpa using hk2)
    simp [APISync.createFails1_false_of_lookup ints k hsome]
  have e2 : APISync.createOutcome2
      { ints with
          api1_only := ints.api1_only.filter
            (fun k => APISync.createFails2 ints fails k = false),
          api2_only := ints.api2_only.filter
            (fun k => APISync.createFails1 ints fails k = false) } APISync.noFail =
      APISync.createOutcome2 ints APISync.noFail := rfl
  have e1 : APISync.createOutcome1
      { ints with
          api1_only := ints.api1_only.filter
            (fun k => APISync.createFails2 ints fails k = false),
          api2_only := ints.api2_only.filter
            (fun k => APISync.createFails1 ints fails k = false) } APISync.noFail =
      APISync.createOutcome1 ints APISync.noFail := rfl
  have f2 : APISync.createFails2
      { ints with
          api1_only := ints.api1_only.filter
            (fun k => APISync.createFails2 ints fails k = false),
          api2_only := ints.api2_only.filter
            (fun k => APISync.createFails1 ints fails k = false) } APISync.noFail =
      APISync.createFails2 ints APISync.noFail := rfl
  have f1 : APISync.createFails1
      { ints with
          api1_only := ints.api1_only.filter
            (fun k => APISync.createFails2 ints fails k = false),
          api2_only := ints.api2_only.filter
            (fun k => APISync.createFails1 ints fails k = false) } APISync.noFail =
      APISync.createFails1 ints APISync.noFail := rfl
  refine ⟨?_, ?_, ?_⟩
  · simp only [APISync.sync_intersections]
    rw [APISync.conflictFold_api1_wins, APISync.createFold2_eq, APISync.createFold1_eq]
    simp [APISync.Stats.zero, List.countP_eq_length_filter, Nat.add_assoc,
      List.append_assoc]
  · simp only [APISync.sync_intersections]
    rw [APISync.conflictFold_api1_wins, APISync.createFold2_eq, APISync.createFold1_eq,
        APISync.conflictFold_api1_wins, APISync.createFold2_eq, APISync.createFold1_eq]
    simp only [hcfF, hcfE, e2, e1, f2, f1]
    simp [APISync.Stats.zero, hout2, hout1, List.countP_eq_length_filter,
      Nat.add_assoc, List.append_assoc]
  · simp only [APISync.sync_intersections]
    rw [APISync.conflictFold_api1_wins, APISync.createFold2_eq, APISync.createFold1_eq]
    simp only [hcfE, e2, e1, f2, f1]
    simp [APISync.Stats.zero, hc2, hc1]
    refine ⟨?_, ?_⟩
    · intro a ha hfa
      exact APISync.createFails2_false_of_lookup ints a
        (APISync.lookup_isSome_of_createFails2_false ints fails a hfa)
    · intro a ha hfa
      exact APISync.createFails1_false_of_lookup ints a
        (APISync.lookup_isSome_of_createFails1_false ints fails a hfa)

/-- Code-point comparison never holds reflexively. -/
lemma charListLt_irrefl : ∀ l : List Char, charListLt l l = false := by
  intro l
  induction l with
  | nil => rfl
  | cons a as ih => simp [charListLt, ih]

/-- Code-point comparison is asymmetric. -/
lemma charListLt_asymm : ∀ l1 l2 : List Char,
    charListLt l1 l2 = true → charListLt l2 l1 = false := by
  intro l1
  induction l1 with
  | nil =>
    intro l2 h
    cases l2 with
    | nil => simpa [charListLt] using h
    | cons b bs => rfl
  | cons a as ih =>
    intro l2 h
    cases l2 with
    | nil => simpa [charListLt] using h
    | cons b bs =>
      by_cases hab : a.toNat < b.toNat
      · have hba : ¬ b.toNat < a.toNat := Nat.lt_asymm hab
        simp [charListLt, hab, hba]
      · by_cases hba : b.toNat < a.toNat
        · simp [charListLt, hab, hba] at h
        · simp only [charListLt, hab, hba, if_false] at h ⊢
          exact ih bs h

/-- Code-point comparison is total on distinct lists. -/
lemma charListLt_connex : ∀ l1 l2 : List Char, l1 ≠ l2 →
    charListLt l1 l2 = true ∨ charListLt l2 l1 = true := by
  intro l1
  induction l1 with
  | nil =>
    intro l2 h
    cases l2 with
    | nil => exact absurd rfl h
    | cons b bs => left; rfl
  | cons a as ih =>
    intro l2 h
    cases l2 with
    | nil => right; rfl
    | cons b bs =>
      by_cases hab : a.toNat < b.toNat
      · left; simp [charListLt, hab]
      · by_cases hba : b.toNat < a.toNat
        · right; simp [charListLt, hba, Nat.lt_asymm hba]
        · have hEq : a = b := by
            have hN : a.toNat = b.toNat :=
              Nat.le_antisymm (Nat.le_of_not_lt hba) (Nat.le_of_not_lt hab)
            exact Char.eq_of_val_eq (UInt32.ext hN)
          subst hEq
          have hne : as ≠ bs := fun hh => h (by rw [hh])
          rcases ih bs hne with h1 | h1
          · left; simp [charListLt, h1]
          · right; simp [charListLt, h1]

/-- Strings are equal when their character lists are. -/
lemma string_eq_of_toList_eq {s t : String} (h : s.toList = t.toList) : s = t := by
  cases s with
  | mk d1 =>
    cases t with
    | mk d2 =>
      simp only [String.toList] at h
      exact congrArg String.mk h

lemma pyLe_antisymm {s t : String} (h1 : pyLe s t = true) (h2 : pyLe t s = true) :
    s = t := by
  simp only [pyLe, Bool.or_eq_true, beq_iff_eq] at h1 h2
  rcases h1 with h1 | h1
  · rcases h2 with h2 | h2
    · have := charListLt_asymm _ _ h1
      rw [pyLt] at h1 h2
      rw [this] at h2
      cases h2
    · exact h2.symm
  · exact h1

lemma pyLe_total (s t : String) : pyLe s t = true ∨ pyLe t s = true := by
  by_cases h : s = t
  · left; simp [pyLe, h]
  · have hne : s.toList ≠ t.toList := fun hh => h (string_eq_of_toList_eq hh)
    rcases charListLt_connex _ _ hne with h1 | h1
    · left
      simp only [pyLe, Bool.or_eq_true]
      exact Or.inl h1
    · right
      simp only [pyLe, Bool.or_eq_true]
      exact Or.inl h1

/-- insertKey inserts: the result is a permutation of consing. -/
lemma insertKey_perm (k : String) (l : List String) :
    (insertKey k l).Perm (k :: l) := by
  induction l with
  | nil => exact List.Perm.refl _
  | cons x xs ih =>
    by_cases h : pyLe k x
    · simp [insertKey, h]
    · simp only [insertKey, h, if_false]
      exact List.Perm.trans (List.Perm.cons x ih) (List.Perm.swap k x xs)

lemma sortKeys_perm (l : List String) : (sortKeys l).Perm l := by
  induction l with
  | nil => exact List.Perm.refl _
  | cons k ks ih =>
    exact List.Perm.trans (insertKey_perm k (sortKeys ks)) (List.Perm.cons k ih)

lemma charListLt_trans : ∀ l1 l2 l3 : List Char,
    charListLt l1 l2 = true → charListLt l2 l3 = true → charListLt l1 l3 = true := by
  intro l1
  induction l1 with
  | nil =>
    intro l2 l3 h12 h23
    cases l2 with
    | nil => simp [charListLt] at h12
    | cons b bs =>
      cases l3 with
      | nil => simp [charListLt] at h23
      | cons c cs => rfl
  | cons a as ih =>
    intro l2 l3 h12 h23
    cases l2 with
    | nil => simp [charListLt] at h12
    | cons b bs =>
      cases l3 with
      | nil => simp [charListLt] at h23
      | cons c cs =>
        by_cases hab : a.toNat < b.toNat
        · by_cases hbc : b.toNat < c.toNat
          · simp [charListLt, Nat.lt_trans hab hbc]
          · by_cases hcb : c.toNat < b.toNat
            · simp [charListLt, hbc, hcb] at h23
            · have hbcEq : b.toNat = c.toNat :=
                Nat.le_antisymm (Nat.le_of_not_lt hcb) (Nat.le_of_not_lt hbc)
              simp [charListLt, hbcEq ▸ hab]
        · by_cases hba : b.toNat < a.toNat
          · simp [charListLt, hab, hba] at h12
          · have habEq : a.toNat = b.toNat :=
              Nat.le_antisymm (Nat.le_of_not_lt hba) (Nat.le_of_not_lt hab)
            simp only [charListLt, hab, hba, if_false] at h12
            by_cases hbc : b.toNat < c.toNat
            · simp [charListLt, habEq ▸ hbc]
            · by_cases hcb : c.toNat < b.toNat
              · simp [charListLt, hbc, hcb] at h23
              · have hbcEq : b.toNat = c.toNat :=
                  Nat.le_antisymm (Nat.le_of_not_lt hcb) (Nat.le_of_not_lt hbc)
                simp only [charListLt, hbc, hcb, if_false] at h23
                have hac : ¬ a.toNat < c.toNat := by omega
                have hca : ¬ c.toNat < a.toNat := by omega
                simp only [charListLt, hac, hca, if_false]
                exact ih bs cs h12 h23

lemma pyLe_trans {k x b : String} (h1 : pyLe k x = true) (h2 : pyLe x b = true) :
    pyLe k b = true := by
  simp only [pyLe, Bool.or_eq_true, beq_iff_eq] at h1 h2 ⊢
  rcases h1 with h1 | h1
  · rcases h2 with h2 | h2
    · exact Or.inl (charListLt_trans _ _ _ h1 h2)
    · subst h2; exact Or.inl h1
  · subst h1; exact h2

lemma insertKey_sorted (k : String) (l : List String)
    (h : List.Sorted (fun a b => pyLe a b = true) l) :
    List.Sorted (fun a b => pyLe a b = true) (insertKey k l) := by
  induction l with
  | nil => simp [insertKey]
  | cons x xs ih =>
    by_cases hkx : pyLe k x
    · rw [insertKey, if_pos hkx]
      rw [List.sorted_cons]
      refine ⟨?_, h⟩
      intro b hb
      rcases List.mem_cons.1 hb with rfl | hb
      · exact hkx
      · have hxb := (List.sorted_cons.1 h).1 b hb
        exact pyLe_trans hkx hxb
    · rw [insertKey, if_neg hkx]
      have hparts := List.sorted_cons.1 h
      have hx := ih hparts.2
      rw [List.sorted_cons]
      refine ⟨?_, hx⟩
      intro b hb
      have hmem := (insertKey_perm k xs).mem_iff.1 hb
      rcases List.mem_cons.1 hmem with rfl | hb2
      · rcases pyLe_total x b with hh | hh
        · exact hh
        · exact absurd hh (by simpa using hkx)
      · exact hparts.1 b hb2

lemma sortKeys_sorted (l : List String) :
    List.Sorted (fun a b => pyLe a b = true) (sortKeys l) := by
  induction l with
  | nil => simp [sortKeys]
  | cons k ks ih => exact insertKey_sorted k (sortKeys ks) ih

/-- Sorting is a function of the multiset of keys: permuted inputs sort
to the same list. -/
lemma sortKeys_eq_of_perm (l1 l2 : List String) (h : l1.Perm l2) :
    sortKeys l1 = sortKeys l2 := by
  haveI : IsAntisymm String (fun a b => pyLe a b = true) :=
    ⟨fun _ _ h1 h2 => pyLe_antisymm h1 h2⟩
  exact List.eq_of_perm_of_sorted
    (List.Perm.trans (sortKeys_perm l1) (List.Perm.trans h (sortKeys_perm l2).symm))
    (sortKeys_sorted l1) (sortKeys_sorted l2)

/-- A key with no entry looks up to none. -/
lemma pget_eq_none_iff (p : Payload) (k : String) :
    pget p k = none ↔ k ∉ pkeys p := by
  unfold pget pkeys
  rw [Option.map_eq_none', List.find?_eq_none]
  constructor
  · intro h hk
    simp only [List.mem_map] at hk
    obtain ⟨e, he, hek⟩ := hk
    have := h e he
    simp [hek] at this
  · intro h e he
    simp only [decide_eq_true_eq]
    intro hek
    exact h (List.mem_map.2 ⟨e, he, hek⟩)

/-- A successful lookup yields a member entry. -/
lemma mem_of_pget_eq_some (p : Payload) (k : String) (v : JValue)
    (h : pget p k = some v) : (k, v) ∈ p := by
  unfold pget at h
  rw [Option.map_eq_some'] at h
  obtain ⟨e, he, hev⟩ := h
  have hm := List.mem_of_find?_eq_some he
  have hk : e.1 = k := by simpa using List.find?_some he
  cases e with
  | mk k0 v0 =>
    cases hk
    cases hev
    exact hm

/-- Under distinct keys, every member entry is the lookup result. -/
lemma pget_eq_some_of_mem (p : Payload) (k : String) (v : JValue)
    (hnd : (pkeys p).Nodup) (h : (k, v) ∈ p) : pget p k = some v := by
  induction p with
  | nil => cases h
  | cons e es ih =>
    rcases List.mem_cons.1 h with rfl | hes
    · unfold pget
      simp [List.find?_cons]
    · have hnd2 : (pkeys es).Nodup := (List.nodup_cons.1 hnd).2
      have hke : ¬ e.1 = k := by
        intro hek
        have hk1 : e.1 ∈ pkeys es → False := by
          intro hmem
          exact (List.nodup_cons.1 hnd).1 hmem
        refine hk1 ?_
        rw [hek]
        exact List.mem_map.2 ⟨(k, v), hes, rfl⟩
      unfold pget
      rw [APISync.find?_cons_if]
      simp only [hke, decide_eq_true_eq, if_false]
      exact ih hnd2 hes

/-- Permuted payloads with distinct keys agree on every lookup. -/
lemma pget_eq_of_perm (p1 p2 : Payload) (h : p1.Perm p2)
    (hnd : (pkeys p1).Nodup) (k : String) : pget p1 k = pget p2 k := by
  have hnd2 : (pkeys p2).Nodup := by
    unfold pkeys at hnd ⊢
    exact (h.map (fun e => e.1)).nodup_iff.1 hnd
  cases hv : pget p1 k with
  | none =>
    rw [pget_eq_none_iff] at hv
    have : k ∉ pkeys p2 := by
      intro hk
      refine hv ?_
      unfold pkeys at hk ⊢
      exact (h.map (fun e => e.1)).mem_iff.2 hk
    exact ((pget_eq_none_iff p2 k).2 this).symm
  | some v =>
    have hm := mem_of_pget_eq_some p1 k v hv
    exact (pget_eq_some_of_mem p2 k v hnd2 (h.mem_iff.1 hm)).symm

/-- C8 (confirmed): the fingerprint is a pure function of the payload —
recomputing it always yields the same value — and two payloads that are
equal as field→value mappings, differing only in insertion order of
their (distinct) fields, have equal checksums: the canonical dump
iterates the sorted key list and looks every value up by key. -/
theorem checksum_order_independent (p1 p2 : Payload)
    (hperm : p1.Perm p2) (hnd : (pkeys p1).Nodup) :
    APISync.calculate_checksum p1 = APISync.calculate_checksum p2 := by
  unfold APISync.calculate_checksum dumpsSorted
  have hkperm : (pkeys p1).Perm (pkeys p2) := by
    unfold pkeys
    exact hperm.map (fun e => e.1)
  have hkeys : sortKeys (pkeys p1) = sortKeys (pkeys p2) :=
    sortKeys_eq_of_perm _ _ hkperm
  have hrf : renderField p1 = renderField p2 := by
    funext k
    unfold renderField
    rw [pget_eq_of_perm p1 p2 hperm hnd k]
  rw [hkeys, hrf]

/-- Witness: reordering the fields of a two-field payload leaves the
checksum unchanged. -/
theorem checksum_order_independent_witness :
    ([(("b" : String), JStr "x"), ("a", JStr "y")] : Payload).Perm
        [("a", JStr "y"), ("b", JStr "x")] ∧
    (pkeys [(("b" : String), JStr "x"), ("a", JStr "y")]).Nodup ∧
    APISync.calculate_checksum [(("b" : String), JStr "x"), ("a", JStr "y")] =
      APISync.calculate_checksum [("a", JStr "y"), ("b", JStr "x")] :=
  ⟨List.Perm.swap _ _ _, by decide,
   checksum_order_independent _ _ (List.Perm.swap _ _ _) (by decide)⟩

/-- C1 (counterexample): the database implementation propagates only
source-exclusive records; after an error-free source_wins run on a
target holding an exclusive row (id 5), re-scanning still reports that
row as target-only — it was never created in the source. -/
theorem db_target_only_never_propagated :
    (DBSync.runSync
        [⟨1, "Ion", "ion@a", "07", "2023-01-15"⟩]
        [⟨1, "Ion", "ion@b", "07", "2023-12-01"⟩,
         ⟨5, "Nou", "nou@e", "0745", "2023-12-01"⟩]
        "source_wins" DBSync.dbNoFail).stats.errors = 0 ∧
    (DBSync.scan_intersections
        (DBSync.load_records
          (DBSync.runSync
            [⟨1, "Ion", "ion@a", "07", "2023-01-15"⟩]
            [⟨1, "Ion", "ion@b", "07", "2023-12-01"⟩,
             ⟨5, "Nou", "nou@e", "0745", "2023-12-01"⟩]
            "source_wins" DBSync.dbNoFail).source)
        (DBSync.load_records
          (DBSync.runSync
            [⟨1, "Ion", "ion@a", "07", "2023-01-15"⟩]
            [⟨1, "Ion", "ion@b", "07", "2023-12-01"⟩,
             ⟨5, "Nou", "nou@e", "0745", "2023-12-01"⟩]
            "source_wins" DBSync.dbNoFail).target)).target_only.map
      (fun r => r.id) = [5] := ⟨rfl, rfl⟩

namespace APISync

/-- Any strategy's conflict step either leaves API-1 alone or appends
the conflict's API-2 payload. -/
lemma resolveConflict_api1_shape (s : String) (fails : FailSpec) (st : SyncState)
    (c : String × APIRecord × APIRecord) :
    (resolveConflict s fails st c).api1 = st.api1 ∨
      (resolveConflict s fails st c).api1 = st.api1 ++ [c.2.2.data] := by
  unfold resolveConflict
  split_ifs <;> simp [update_api_record_eq_append] <;>
    split_ifs <;> simp [update_api_record_eq_append]

/-- Any strategy's conflict step either leaves API-2 alone or appends
the conflict's API-1 payload. -/
lemma resolveConflict_api2_shape (s : String) (fails : FailSpec) (st : SyncState)
    (c : String × APIRecord × APIRecord) :
    (resolveConflict s fails st c).api2 = st.api2 ∨
      (resolveConflict s fails st c).api2 = st.api2 ++ [c.2.1.data] := by
  unfold resolveConflict
  split_ifs <;> simp [update_api_record_eq_append] <;>
    split_ifs <;> simp [update_api_record_eq_append]

/-- The conflict fold appends to API-1 only payloads of listed
conflicts' API-2 records. -/
lemma conflictFold_api1_shape (s : String) (fails : FailSpec) :
    ∀ (cf : List (String × APIRecord × APIRecord)) (st : SyncState),
      ∃ ws, (cf.foldl (resolveConflict s fails) st).api1 = st.api1 ++ ws ∧
        ∀ p ∈ ws, ∃ c ∈ cf, p = c.2.2.data := by
  intro cf
  induction cf with
  | nil => intro st; exact ⟨[], by simp, by simp⟩
  | cons c cs ih =>
    intro st
    obtain ⟨ws, hws, hall⟩ := ih (resolveConflict s fails st c)
    rcases resolveConflict_api1_shape s fails st c with h | h
    · refine ⟨ws, ?_, ?_⟩
      · rw [List.foldl_cons, hws, h]
      · intro p hp
        obtain ⟨c0, hc0, hpc⟩ := hall p hp
        exact ⟨c0, List.mem_cons_of_mem c hc0, hpc⟩
    · refine ⟨c.2.2.data :: ws, ?_, ?_⟩
      · rw [List.foldl_cons, hws, h]
        simp
      · intro p hp
        rcases List.mem_cons.1 hp with rfl | hp
        · exact ⟨c, List.mem_cons_self c cs, rfl⟩
        · obtain ⟨c0, hc0, hpc⟩ := hall p hp
          exact ⟨c0, List.mem_cons_of_mem c hc0, hpc⟩

/-- The conflict fold appends to API-2 only payloads of listed
conflicts' API-1 records. -/
lemma conflictFold_api2_shape (s : String) (fails : FailSpec) :
    ∀ (cf : List (String × APIRecord × APIRecord)) (st : SyncState),
      ∃ ws, (cf.foldl (resolveConflict s fails) st).api2 = st.api2 ++ ws ∧
        ∀ p ∈ ws, ∃ c ∈ cf, p = c.2.1.data := by
  intro cf
  induction cf with
  | nil => intro st; exact ⟨[], by simp, by simp⟩
  | cons c cs ih =>
    intro st
    obtain ⟨ws, hws, hall⟩ := ih (resolveConflict s fails st c)
    rcases resolveConflict_api2_shape s fails st c with h | h
    · refine ⟨ws, ?_, ?_⟩
      · rw [List.foldl_cons, hws, h]
      · intro p hp
        obtain ⟨c0, hc0, hpc⟩ := hall p hp
        exact ⟨c0, List.mem_cons_of_mem c hc0, hpc⟩
    · refine ⟨c.2.1.data :: ws, ?_, ?_⟩
      · rw [List.foldl_cons, hws, h]
        simp
      · intro p hp
        rcases List.mem_cons.1 hp with rfl | hp
        · exact ⟨c, List.mem_cons_self c cs, rfl⟩
        · obtain ⟨c0, hc0, hpc⟩ := hall p hp
          exact ⟨c0, List.mem_cons_of_mem c hc0, hpc⟩

/-- The conflict fold never touches the counters' created field nor the
stores through anything but appends; in particular its stats stay
whatever the branch arithmetic makes them. Conflicts listed by
detect_conflicts carry their key and the two snapshot records. -/
lemma mem_detect (ints : Intersections) (c : String × APIRecord × APIRecord)
    (h : c ∈ detect_conflicts ints) :
    c.1 ∈ ints.common_records ∧
      recLookup ints.api1_data c.1 = some c.2.1 ∧
      recLookup ints.api2_data c.1 = some c.2.2 := by
  unfold detect_conflicts at h
  obtain ⟨k, hk, hc⟩ := List.mem_filterMap.1 h
  cases hq1 : recLookup ints.api1_data k with
  | none => rw [hq1] at hc; cases hc
  | some r1 =>
    cases hq2 : recLookup ints.api2_data k with
    | none => rw [hq1, hq2] at hc; cases hc
    | some r2 =>
      rw [hq1, hq2] at hc
      dsimp only at hc
      by_cases hcs : r1.checksum ≠ r2.checksum
      · rw [if_pos hcs] at hc
        cases hc
        exact ⟨hk, hq1, hq2⟩
      · rw [if_neg hcs] at hc
        cases hc

/-- The payload lastPayload finds is a member of the store. -/
lemma lastPayload_mem (k : String) : ∀ (l : Store) (p : Payload),
    lastPayload k l = some p → p ∈ l := by
  intro l
  induction l with
  | nil =>
    intro p h
    simp [lastPayload] at h
  | cons q qs ih =>
    intro p h
    unfold lastPayload at h
    cases hq : lastPayload k qs with
    | some r =>
      rw [hq] at h
      have : r = p := by simpa using h
      subst this
      exact List.mem_cons_of_mem q (ih r hq)
    | none =>
      rw [hq] at h
      by_cases hqk : payloadId q = k
      · rw [if_pos hqk] at h
        cases h
        exact List.mem_cons_self q qs
      · rw [if_neg hqk] at h
        cases h

/-- A snapshot record's payload carries the key it is stored under. -/
lemma snapshot_data_id (src : String) (store : Store) (k : String)
    (rec : APIRecord) (h : snapshotRecord src store k = some rec) :
    payloadId rec.data = k ∧ rec.data ∈ store := by
  unfold snapshotRecord at h
  cases hq : lastPayload k store with
  | none => rw [hq] at h; cases h
  | some p =>
    rw [hq] at h
    cases h
    exact ⟨lastPayload_id k store p hq, lastPayload_mem k store p hq⟩

end APISync

namespace APISync

/-- The scan snapshot lookup is snapshotRecord, API-1 side. -/
lemma scan_api1_lookup (a1 a2 : Store) (k : String) :
    recLookup (scan_intersections a1 a2).api1_data k = snapshotRecord "API-1" a1 k := by
  simp [scan_intersections, recLookup_buildRecords]

/-- The scan snapshot lookup is snapshotRecord, API-2 side. -/
lemma scan_api2_lookup (a1 a2 : Store) (k : String) :
    recLookup (scan_intersections a1 a2).api2_data k = snapshotRecord "API-2" a2 k := by
  simp [scan_intersections, recLookup_buildRecords]

/-- Payloads delivered by the api1-only creation loop are store members
carrying their key. -/
lemma outcome2_mem (a1 a2 : Store) (k : String) (p : Payload)
    (h : createOutcome2 (scan_intersections a1 a2) noFail k = some p) :
    payloadId p = k ∧ p ∈ a1 := by
  unfold createOutcome2 at h
  rw [scan_api1_lookup] at h
  cases hq : snapshotRecord "API-1" a1 k with
  | none => rw [hq] at h; cases h
  | some rec =>
    rw [hq] at h
    simp only [noFail, if_false, Bool.false_eq_true] at h
    cases h
    exact snapshot_data_id "API-1" a1 k rec hq

/-- Payloads delivered by the api2-only creation loop are store members
carrying their key. -/
lemma outcome1_mem (a1 a2 : Store) (k : String) (p : Payload)
    (h : createOutcome1 (scan_intersections a1 a2) noFail k = some p) :
    payloadId p = k ∧ p ∈ a2 := by
  unfold createOutcome1 at h
  rw [scan_api2_lookup] at h
  cases hq : snapshotRecord "API-2" a2 k with
  | none => rw [hq] at h; cases h
  | some rec =>
    rw [hq] at h
    simp only [noFail, if_false, Bool.false_eq_true] at h
    cases h
    exact snapshot_data_id "API-2" a2 k rec hq

/-- Every api1-only key has its payload delivered into API-2. -/
lemma api1_only_delivered (a1 a2 : Store) (k : String)
    (hk : k ∈ (scan_intersections a1 a2).api1_only) :
    ∃ p ∈ (scan_intersections a1 a2).api1_only.filterMap
        (createOutcome2 (scan_intersections a1 a2) noFail),
      payloadId p = k := by
  have hs := api1_only_lookup_isSome a1 a2 k hk
  cases hq : recLookup (scan_intersections a1 a2).api1_data k with
  | none => rw [hq] at hs; simp at hs
  | some rec =>
    have hout : createOutcome2 (scan_intersections a1 a2) noFail k = some rec.data := by
      simp [createOutcome2, hq, noFail]
    refine ⟨rec.data, List.mem_filterMap.2 ⟨k, hk, hout⟩, ?_⟩
    exact (outcome2_mem a1 a2 k rec.data hout).1

/-- Every api2-only key has its payload delivered into API-1. -/
lemma api2_only_delivered (a1 a2 : Store) (k : String)
    (hk : k ∈ (scan_intersections a1 a2).api2_only) :
    ∃ p ∈ (scan_intersections a1 a2).api2_only.filterMap
        (createOutcome1 (scan_intersections a1 a2) noFail),
      payloadId p = k := by
  have hs := api2_only_lookup_isSome a1 a2 k hk
  cases hq : recLookup (scan_intersections a1 a2).api2_data k with
  | none => rw [hq] at hs; simp at hs
  | some rec =>
    have hout : createOutcome1 (scan_intersections a1 a2) noFail k = some rec.data := by
      simp [createOutcome1, hq, noFail]
    refine ⟨rec.data, List.mem_filterMap.2 ⟨k, hk, hout⟩, ?_⟩
    exact (outcome1_mem a1 a2 k rec.data hout).1

end APISync

namespace APISync

/-- Decomposition of a failure-free run's final stores: each side is its
original store, then the conflict-phase writes (payloads taken from the
OTHER side's store), then the propagated exclusive payloads. -/
lemma runSync_stores (a1 a2 : Store) (s : String) :
    ∃ ws1 ws2,
      (runSync a1 a2 s noFail).api1 =
        (a1 ++ ws1) ++ (scan_intersections a1 a2).api2_only.filterMap
          (createOutcome1 (scan_intersections a1 a2) noFail) ∧
      (runSync a1 a2 s noFail).api2 =
        (a2 ++ ws2) ++ (scan_intersections a1 a2).api1_only.filterMap
          (createOutcome2 (scan_intersections a1 a2) noFail) ∧
      (∀ p ∈ ws1, p ∈ a2) ∧ (∀ p ∈ ws2, p ∈ a1) := by
  obtain ⟨ws1, hws1, hall1⟩ :=
    conflictFold_api1_shape s noFail (detect_conflicts (scan_intersections a1 a2))
      ⟨Stats.zero, a1, a2⟩
  obtain ⟨ws2, hws2, hall2⟩ :=
    conflictFold_api2_shape s noFail (detect_conflicts (scan_intersections a1 a2))
      ⟨Stats.zero, a1, a2⟩
  refine ⟨ws1, ws2, ?_, ?_, ?_, ?_⟩
  · show (sync_intersections a1 a2 (scan_intersections a1 a2)
      (detect_conflicts (scan_intersections a1 a2)) s noFail).api1 = _
    simp only [sync_intersections]
    rw [createFold2_eq, createFold1_eq]
    simp only [hws1]
  · show (sync_intersections a1 a2 (scan_intersections a1 a2)
      (detect_conflicts (scan_intersections a1 a2)) s noFail).api2 = _
    simp only [sync_intersections]
    rw [createFold2_eq, createFold1_eq]
    simp only [hws2]
  · intro p hp
    obtain ⟨c, hc, rfl⟩ := hall1 p hp
    obtain ⟨hck, hc1, hc2⟩ := mem_detect _ c hc
    rw [scan_api2_lookup] at hc2
    exact (snapshot_data_id "API-2" a2 c.1 c.2.2 hc2).2
  · intro p hp
    obtain ⟨c, hc, rfl⟩ := hall2 p hp
    obtain ⟨hck, hc1, hc2⟩ := mem_detect _ c hc
    rw [scan_api1_lookup] at hc1
    exact (snapshot_data_id "API-1" a1 c.1 c.2.1 hc1).2

end APISync

namespace APISync

/-- After a failure-free run, every key on either side is present on
both sides: re-scanning finds no exclusive keys. -/
lemma rescan_only_empty (a1 a2 : Store) (s : String) :
    (scan_intersections (runSync a1 a2 s noFail).api1
        (runSync a1 a2 s noFail).api2).api1_only = [] ∧
    (scan_intersections (runSync a1 a2 s noFail).api1
        (runSync a1 a2 s noFail).api2).api2_only = [] := by
  obtain ⟨ws1, ws2, h1, h2, hm1, hm2⟩ := runSync_stores a1 a2 s
  have cover1 : ∀ k, k ∈ (runSync a1 a2 s noFail).api1.map payloadId →
      k ∈ (runSync a1 a2 s noFail).api2.map payloadId := by
    intro k hk
    rw [h1] at hk
    rw [h2]
    simp only [List.map_append, List.mem_append, List.mem_map] at hk ⊢
    rcases hk with (⟨p, hp, rfl⟩ | ⟨p, hp, rfl⟩) | ⟨p, hp, rfl⟩
    · by_cases hk2 : payloadId p ∈ a2.map payloadId
      · obtain ⟨q, hq, hqk⟩ := List.mem_map.1 hk2
        exact Or.inl (Or.inl ⟨q, hq, hqk⟩)
      · have honly : payloadId p ∈ (scan_intersections a1 a2).api1_only := by
          rw [mem_api1_only, mem_mkeys_buildRecords, mem_mkeys_buildRecords]
          exact ⟨List.mem_map_of_mem payloadId hp, hk2⟩
        obtain ⟨p2, hp2, hp2k⟩ := api1_only_delivered a1 a2 (payloadId p) honly
        exact Or.inr ⟨p2, hp2, hp2k⟩
    · have hpa2 := hm1 p hp
      exact Or.inl (Or.inl ⟨p, hpa2, rfl⟩)
    · obtain ⟨k0, hk0, hout⟩ := List.mem_filterMap.1 hp
      have := (outcome1_mem a1 a2 k0 p hout).2
      exact Or.inl (Or.inl ⟨p, this, rfl⟩)
  have cover2 : ∀ k, k ∈ (runSync a1 a2 s noFail).api2.map payloadId →
      k ∈ (runSync a1 a2 s noFail).api1.map payloadId := by
    intro k hk
    rw [h2] at hk
    rw [h1]
    simp only [List.map_append, List.mem_append, List.mem_map] at hk ⊢
    rcases hk with (⟨p, hp, rfl⟩ | ⟨p, hp, rfl⟩) | ⟨p, hp, rfl⟩
    · by_cases hk1 : payloadId p ∈ a1.map payloadId
      · obtain ⟨q, hq, hqk⟩ := List.mem_map.1 hk1
        exact Or.inl (Or.inl ⟨q, hq, hqk⟩)
      · have honly : payloadId p ∈ (scan_intersections a1 a2).api2_only := by
          rw [mem_api2_only, mem_mkeys_buildRecords, mem_mkeys_buildRecords]
          exact ⟨List.mem_map_of_mem payloadId hp, hk1⟩
        obtain ⟨p2, hp2, hp2k⟩ := api2_only_delivered a1 a2 (payloadId p) honly
        exact Or.inr ⟨p2, hp2, hp2k⟩
    · have hpa1 := hm2 p hp
      exact Or.inl (Or.inl ⟨p, hpa1, rfl⟩)
    · obtain ⟨k0, hk0, hout⟩ := List.mem_filterMap.1 hp
      have := (outcome2_mem a1 a2 k0 p hout).2
      exact Or.inl (Or.inl ⟨p, this, rfl⟩)
  constructor
  · rw [List.eq_nil_iff_forall_not_mem]
    intro k hk
    rw [mem_api1_only, mem_mkeys_buildRecords, mem_mkeys_buildRecords] at hk
    exact hk.2 (cover1 k hk.1)
  · rw [List.eq_nil_iff_forall_not_mem]
    intro k hk
    rw [mem_api2_only, mem_mkeys_buildRecords, mem_mkeys_buildRecords] at hk
    exact hk.2 (cover2 k hk.1)

end APISync

namespace DBSync

/-- UPDATE keeps the table's id column unchanged. -/
lemma ids_update_record (db : List Row) (rec : Record) :
    (update_record db rec).map (fun r => r.id) = db.map (fun r => r.id) := by
  unfold update_record
  rw [List.map_map]
  congr 1
  funext row
  by_cases h : row.id = rec.id
  · simp [Function.comp, h, Record.toRow]
  · simp [Function.comp, h]

/-- One conflict step never changes either table's id column. -/
lemma conflictStep_ids (s : String) (fails : DBFailSpec) (st : DBState)
    (e : Int × Record × Record) :
    (conflictStep s fails st e).source.map (fun r => r.id) =
        st.source.map (fun r => r.id) ∧
      (conflictStep s fails st e).target.map (fun r => r.id) =
        st.target.map (fun r => r.id) := by
  unfold conflictStep
  split_ifs <;> simp [ids_update_record] <;>
    split_ifs <;> simp [ids_update_record]

/-- The conflict fold never changes either table's id column. -/
lemma conflictFold_ids (s : String) (fails : DBFailSpec) :
    ∀ (entries : List (Int × Record × Record)) (st : DBState),
      (entries.foldl (conflictStep s fails) st).source.map (fun r => r.id) =
          st.source.map (fun r => r.id) ∧
        (entries.foldl (conflictStep s fails) st).target.map (fun r => r.id) =
          st.target.map (fun r => r.id) := by
  intro entries
  induction entries with
  | nil => intro st; exact ⟨rfl, rfl⟩
  | cons e es ih =>
    intro st
    rw [List.foldl_cons]
    obtain ⟨ihs, iht⟩ := ih (conflictStep s fails st e)
    obtain ⟨hs, ht⟩ := conflictStep_ids s fails st e
    exact ⟨ihs.trans hs, iht.trans ht⟩

/-- Upserting keeps the old ids and adds the record's. -/
lemma mem_ids_insert_record (db : List Row) (rec : Record) (i : Int) :
    i ∈ (insert_record db rec).map (fun r => r.id) ↔
      (i = rec.id ∨ i ∈ db.map (fun r => r.id)) := by
  unfold insert_record
  by_cases h : db.any (fun row => row.id = rec.id)
  · rw [if_pos h]
    have hids : (db.map (fun row => if row.id = rec.id then rec.toRow else row)).map
        (fun r => r.id) = db.map (fun r => r.id) := by
      rw [List.map_map]
      congr 1
      funext row
      by_cases hr : row.id = rec.id
      · simp [Function.comp, hr, Record.toRow]
      · simp [Function.comp, hr]
    rw [hids]
    constructor
    · exact Or.inr
    · rintro (rfl | hh)
      · simp only [List.any_eq_true, decide_eq_true_eq] at h
        obtain ⟨row, hrow, hrid⟩ := h
        exact hrid ▸ List.mem_map_of_mem _ hrow
      · exact hh
  · rw [if_neg h]
    simp [Record.toRow, or_comm]

/-- The insertion fold keeps old ids and adds every inserted id. -/
lemma insertFold_ids (recs : List Record) (tgt : List Row) :
    (∀ i ∈ tgt.map (fun r => r.id),
        i ∈ (recs.foldl insert_record tgt).map (fun r => r.id)) ∧
      (∀ rec ∈ recs, rec.id ∈ (recs.foldl insert_record tgt).map (fun r => r.id)) := by
  induction recs generalizing tgt with
  | nil => exact ⟨fun i hi => hi, fun rec h => absurd h (List.not_mem_nil rec)⟩
  | cons r rs ih =>
    rw [List.foldl_cons]
    obtain ⟨ihold, ihnew⟩ := ih (insert_record tgt r)
    refine ⟨?_, ?_⟩
    · intro i hi
      exact ihold i ((mem_ids_insert_record tgt r i).2 (Or.inr hi))
    · intro rec hrec
      rcases List.mem_cons.1 hrec with rfl | hrec
      · exact ihold rec.id ((mem_ids_insert_record tgt rec rec.id).2 (Or.inl rfl))
      · exact ihnew rec hrec

/-- Loading preserves the id column. -/
lemma load_ids (db : List Row) :
    (load_records db).map (fun r => r.id) = db.map (fun r => r.id) := by
  unfold load_records
  rw [List.map_map]
  congr 1

end DBSync

namespace DBSync

/-- Element-level description of the scan's source-only list. -/
lemma mem_source_only (src tgt : List Record) (r : Record) :
    r ∈ (scan_intersections src tgt).source_only ↔
      (r ∈ src ∧ r.id ∉ tgt.map (fun x => x.id)) := by
  simp only [scan_intersections, List.mem_filter, decide_eq_true_eq]
  constructor
  · rintro ⟨h1, h2⟩
    refine ⟨h1, ?_⟩
    intro hk
    refine h2 ?_
    simpa using hk
  · rintro ⟨h1, h2⟩
    refine ⟨h1, ?_⟩
    intro hk
    refine h2 ?_
    simpa using hk

/-- After a failure-free database run, re-scanning reports no
source-only records: every source id is present in the target. -/
lemma db_rescan_source_only_empty (src tgt : List Row) (s : String) :
    (scan_intersections (load_records (runSync src tgt s dbNoFail).source)
        (load_records (runSync src tgt s dbNoFail).target)).source_only = [] := by
  have hrun : runSync src tgt s dbNoFail =
      ((scan_intersections (load_records src) (load_records tgt)).source_only.foldl
        (insertStep dbNoFail)
        ((scan_intersections (load_records src) (load_records tgt)).intersection.foldl
          (conflictStep s dbNoFail) ⟨DBStats.zero, src, tgt⟩)) := rfl
  rw [hrun, insertFold_noFail]
  obtain ⟨hsrc, htgt⟩ := conflictFold_ids s dbNoFail
    (scan_intersections (load_records src) (load_records tgt)).intersection
    ⟨DBStats.zero, src, tgt⟩
  rw [List.eq_nil_iff_forall_not_mem]
  intro rec0 hrec0
  rw [mem_source_only] at hrec0
  obtain ⟨hmem, hnot⟩ := hrec0
  have hid_src : rec0.id ∈ src.map (fun r => r.id) := by
    have h0 : rec0.id ∈ (load_records ((scan_intersections (load_records src)
        (load_records tgt)).intersection.foldl (conflictStep s dbNoFail)
        ⟨DBStats.zero, src, tgt⟩).source).map (fun r => r.id) :=
      List.mem_map_of_mem _ hmem
    rw [load_ids, hsrc] at h0
    exact h0
  have hgoal : rec0.id ∈ ((scan_intersections (load_records src)
      (load_records tgt)).source_only.foldl insert_record
      ((scan_intersections (load_records src) (load_records tgt)).intersection.foldl
        (conflictStep s dbNoFail) ⟨DBStats.zero, src, tgt⟩).target).map
      (fun r => r.id) := by
    obtain ⟨hold, hnew⟩ := insertFold_ids
      (scan_intersections (load_records src) (load_records tgt)).source_only
      ((scan_intersections (load_records src) (load_records tgt)).intersection.foldl
        (conflictStep s dbNoFail) ⟨DBStats.zero, src, tgt⟩).target
    by_cases htg : rec0.id ∈ tgt.map (fun r => r.id)
    · refine hold rec0.id ?_
      rw [htgt]
      exact htg
    · obtain ⟨rec1, hrec1, hrec1id⟩ : ∃ rec1 ∈ load_records src, rec1.id = rec0.id := by
        have h1 : rec0.id ∈ (load_records src).map (fun r => r.id) := by
          rw [load_ids]
          exact hid_src
        obtain ⟨rec1, ha, hb⟩ := List.mem_map.1 h1
        exact ⟨rec1, ha, hb⟩
      have hrec1_only : rec1 ∈ (scan_intersections (load_records src)
          (load_records tgt)).source_only := by
        rw [mem_source_only]
        refine ⟨hrec1, ?_⟩
        rw [hrec1id, load_ids]
        exact htg
      exact hrec1id ▸ hnew rec1 hrec1_only
  refine hnot ?_
  rw [load_ids]
  exact hgoal

end DBSync

/-- C1 (amended): in the API implementation propagation is unconditional
under every strategy string — after an error-free scan → detect → resolve
run, re-scanning the resource type yields empty onlyA and onlyB. In the
database implementation only source-exclusive records are propagated:
after an error-free run re-scanning yields an empty source-only set,
but target-exclusive records are never created in the source, so the
claim's API-2-to-API-1 direction fails there (see the counterexample). -/
theorem propagation_completeness_amended :
    (∀ (a1 a2 : APISync.Store) (s : String),
      (APISync.scan_intersections (APISync.runSync a1 a2 s APISync.noFail).api1
          (APISync.runSync a1 a2 s APISync.noFail).api2).api1_only = [] ∧
      (APISync.scan_intersections (APISync.runSync a1 a2 s APISync.noFail).api1
          (APISync.runSync a1 a2 s APISync.noFail).api2).api2_only = []) ∧
    (∀ (src tgt : List DBSync.Row) (s : String),
      (DBSync.scan_intersections
          (DBSync.load_records (DBSync.runSync src tgt s DBSync.dbNoFail).source)
          (DBSync.load_records
            (DBSync.runSync src tgt s DBSync.dbNoFail).target)).source_only = []) :=
  ⟨fun a1 a2 s => APISync.rescan_only_empty a1 a2 s,
   fun src tgt s => DBSync.db_rescan_source_only_empty src tgt s⟩

namespace APISync

/-- lastPayload looks in the later segment first. -/
lemma lastPayload_append (k : String) (l1 l2 : Store) :
    lastPayload k (l1 ++ l2) =
      match lastPayload k l2 with
      | some p => some p
      | none => lastPayload k l1 := by
  induction l1 with
  | nil =>
    simp only [List.nil_append, lastPayload]
    cases lastPayload k l2 <;> rfl
  | cons q qs ih =>
    cases hl2 : lastPayload k l2 with
    | some p =>
      show lastPayload k (q :: (qs ++ l2)) = some p
      unfold lastPayload
      rw [ih, hl2]
    | none =>
      show lastPayload k (q :: (qs ++ l2)) = lastPayload k (q :: qs)
      unfold lastPayload
      rw [ih, hl2]

/-- No payload with the id means no last payload. -/
lemma lastPayload_eq_none (k : String) (l : Store)
    (h : ∀ p ∈ l, payloadId p ≠ k) : lastPayload k l = none := by
  induction l with
  | nil => rfl
  | cons q qs ih =>
    unfold lastPayload
    rw [ih (fun p hp => h p (List.mem_cons_of_mem q hp))]
    simp [h q (List.mem_cons_self q qs)]

/-- With distinct ids, the member payload with the id is the last one. -/
lemma lastPayload_eq_some (k : String) (l : Store) (p : Payload)
    (hnd : (l.map payloadId).Nodup) (hp : p ∈ l) (hpk : payloadId p = k) :
    lastPayload k l = some p := by
  induction l with
  | nil => cases hp
  | cons q qs ih =>
    rw [List.map_cons, List.nodup_cons] at hnd
    rcases List.mem_cons.1 hp with rfl | hp2
    · have hnone : lastPayload k qs = none := by
        refine lastPayload_eq_none k qs ?_
        intro p2 hp2 hp2k
        exact hnd.1 (hpk ▸ hp2k ▸ List.mem_map_of_mem payloadId hp2)
      unfold lastPayload
      rw [hnone, if_pos hpk]
    · unfold lastPayload
      rw [ih hnd.2 hp2]

/-- filterMap with key-preserving outputs keeps distinct keys distinct. -/
lemma nodup_filterMap_keys {α : Type} (f : String → Option α) (key : α → String)
    (hf : ∀ k a, f k = some a → key a = k) :
    ∀ l : List String, l.Nodup → ((l.filterMap f).map key).Nodup := by
  intro l
  induction l with
  | nil => intro h; simp
  | cons k ks ih =>
    intro h
    rw [List.nodup_cons] at h
    rw [List.filterMap_cons]
    cases hfk : f k with
    | none => exact ih h.2
    | some a =>
      rw [List.map_cons, List.nodup_cons]
      refine ⟨?_, ih h.2⟩
      intro hmem
      obtain ⟨b, hb, hbk⟩ := List.mem_map.1 hmem
      obtain ⟨k2, hk2, hfk2⟩ := List.mem_filterMap.1 hb
      have : k2 = key a := (hf k2 b hfk2) ▸ hbk
      rw [hf k a hfk] at this
      exact h.1 (this ▸ hk2)

/-- The scan's common-record list has distinct keys. -/
lemma nodup_common (a1 a2 : Store) :
    (scan_intersections a1 a2).common_records.Nodup := by
  simp only [scan_intersections]
  exact List.Nodup.filter _ (nodup_mkeys_buildRecords "API-1" a1)

/-- The api1-only list has distinct keys. -/
lemma nodup_api1_only (a1 a2 : Store) :
    (scan_intersections a1 a2).api1_only.Nodup := by
  simp only [scan_intersections]
  exact List.Nodup.filter _ (nodup_mkeys_buildRecords "API-1" a1)

/-- The api2-only list has distinct keys. -/
lemma nodup_api2_only (a1 a2 : Store) :
    (scan_intersections a1 a2).api2_only.Nodup := by
  simp only [scan_intersections]
  exact List.Nodup.filter _ (nodup_mkeys_buildRecords "API-2" a2)

/-- Conflicts listed by detect_conflicts carry distinct keys. -/
lemma nodup_detect_keys (a1 a2 : Store) :
    ((detect_conflicts (scan_intersections a1 a2)).map (fun c => c.1)).Nodup := by
  unfold detect_conflicts
  refine nodup_filterMap_keys _
    (fun c : String × APIRecord × APIRecord => c.1) ?_ _ (nodup_common a1 a2)
  intro k c h
  cases hq1 : recLookup (scan_intersections a1 a2).api1_data k with
  | none => rw [hq1] at h; cases h
  | some r1 =>
    cases hq2 : recLookup (scan_intersections a1 a2).api2_data k with
    | none => rw [hq1, hq2] at h; cases h
    | some r2 =>
      rw [hq1, hq2] at h
      dsimp only at h
      by_cases hcs : r1.checksum ≠ r2.checksum
      · rw [if_pos hcs] at h
        cases h
        rfl
      · rw [if_neg hcs] at h
        cases h

/-- Converse of conflict listing: a common key whose two snapshot
records' checksums differ appears in the conflict list. -/
lemma detect_of_mismatch (ints : Intersections) (k : String)
    (r1 r2 : APIRecord) (hk : k ∈ ints.common_records)
    (h1 : recLookup ints.api1_data k = some r1)
    (h2 : recLookup ints.api2_data k = some r2)
    (hne : r1.checksum ≠ r2.checksum) :
    (k, r1, r2) ∈ detect_conflicts ints := by
  unfold detect_conflicts
  refine List.mem_filterMap.2 ⟨k, hk, ?_⟩
  rw [h1, h2]
  dsimp only
  rw [if_pos hne]

end APISync

namespace APISync

/-- The delivered api1-only payload list, looked up by key. -/
lemma lastPayload_fm2 (a1 a2 : Store) (k : String) :
    (k ∈ (scan_intersections a1 a2).api1_only →
      ∃ rec, recLookup (scan_intersections a1 a2).api1_data k = some rec ∧
        lastPayload k ((scan_intersections a1 a2).api1_only.filterMap
          (createOutcome2 (scan_intersections a1 a2) noFail)) = some rec.data) ∧
    (k ∉ (scan_intersections a1 a2).api1_only →
      lastPayload k ((scan_intersections a1 a2).api1_only.filterMap
        (createOutcome2 (scan_intersections a1 a2) noFail)) = none) := by
  constructor
  · intro hk
    have hs := api1_only_lookup_isSome a1 a2 k hk
    cases hq : recLookup (scan_intersections a1 a2).api1_data k with
    | none => rw [hq] at hs; simp at hs
    | some rec =>
      refine ⟨rec, rfl, ?_⟩
      have hout : createOutcome2 (scan_intersections a1 a2) noFail k = some rec.data := by
        simp [createOutcome2, hq, noFail]
      have hnd : (((scan_intersections a1 a2).api1_only.filterMap
          (createOutcome2 (scan_intersections a1 a2) noFail)).map payloadId).Nodup :=
        nodup_filterMap_keys _ payloadId
          (fun k0 p h => (outcome2_mem a1 a2 k0 p h).1) _ (nodup_api1_only a1 a2)
      refine lastPayload_eq_some k _ rec.data hnd
        (List.mem_filterMap.2 ⟨k, hk, hout⟩) ?_
      exact (outcome2_mem a1 a2 k rec.data hout).1
  · intro hk
    refine lastPayload_eq_none k _ ?_
    intro p hp hpk
    obtain ⟨k0, hk0, hout⟩ := List.mem_filterMap.1 hp
    have := (outcome2_mem a1 a2 k0 p hout).1
    rw [this] at hpk
    exact hk (hpk ▸ hk0)

/-- The delivered api2-only payload list, looked up by key. -/
lemma lastPayload_fm1 (a1 a2 : Store) (k : String) :
    (k ∈ (scan_intersections a1 a2).api2_only →
      ∃ rec, recLookup (scan_intersections a1 a2).api2_data k = some rec ∧
        lastPayload k ((scan_intersections a1 a2).api2_only.filterMap
          (createOutcome1 (scan_intersections a1 a2) noFail)) = some rec.data) ∧
    (k ∉ (scan_intersections a1 a2).api2_only →
      lastPayload k ((scan_intersections a1 a2).api2_only.filterMap
        (createOutcome1 (scan_intersections a1 a2) noFail)) = none) := by
  constructor
  · intro hk
    have hs := api2_only_lookup_isSome a1 a2 k hk
    cases hq : recLookup (scan_intersections a1 a2).api2_data k with
    | none => rw [hq] at hs; simp at hs
    | some rec =>
      refine ⟨rec, rfl, ?_⟩
      have hout : createOutcome1 (scan_intersections a1 a2) noFail k = some rec.data := by
        simp [createOutcome1, hq, noFail]
      have hnd : (((scan_intersections a1 a2).api2_only.filterMap
          (createOutcome1 (scan_intersections a1 a2) noFail)).map payloadId).Nodup :=
        nodup_filterMap_keys _ payloadId
          (fun k0 p h => (outcome1_mem a1 a2 k0 p h).1) _ (nodup_api2_only a1 a2)
      refine lastPayload_eq_some k _ rec.data hnd
        (List.mem_filterMap.2 ⟨k, hk, hout⟩) ?_
      exact (outcome1_mem a1 a2 k rec.data hout).1
  · intro hk
    refine lastPayload_eq_none k _ ?_
    intro p hp hpk
    obtain ⟨k0, hk0, hout⟩ := List.mem_filterMap.1 hp
    have := (outcome1_mem a1 a2 k0 p hout).1
    rw [this] at hpk
    exact hk (hpk ▸ hk0)

/-- Payload ids of the conflict writes into API-2 are the conflict keys. -/
lemma cfd1_ids (a1 a2 : Store) :
    ((detect_conflicts (scan_intersections a1 a2)).map
        (fun c => c.2.1.data)).map payloadId =
      (detect_conflicts (scan_intersections a1 a2)).map (fun c => c.1) := by
  rw [List.map_map]
  refine List.map_congr_left ?_
  intro c hc
  obtain ⟨_, hc1, _⟩ := mem_detect _ c hc
  rw [scan_api1_lookup] at hc1
  exact (snapshot_data_id "API-1" a1 c.1 c.2.1 hc1).1

/-- Payload ids of the conflict writes into API-1 are the conflict keys. -/
lemma cfd2_ids (a1 a2 : Store) :
    ((detect_conflicts (scan_intersections a1 a2)).map
        (fun c => c.2.2.data)).map payloadId =
      (detect_conflicts (scan_intersections a1 a2)).map (fun c => c.1) := by
  rw [List.map_map]
  refine List.map_congr_left ?_
  intro c hc
  obtain ⟨_, _, hc2⟩ := mem_detect _ c hc
  rw [scan_api2_lookup] at hc2
  exact (snapshot_data_id "API-2" a2 c.1 c.2.2 hc2).1

/-- The conflict-write list into API-2, looked up by key. -/
lemma lastPayload_cfd1 (a1 a2 : Store) (k : String) :
    (∀ c ∈ detect_conflicts (scan_intersections a1 a2), c.1 = k →
      lastPayload k ((detect_conflicts (scan_intersections a1 a2)).map
        (fun c => c.2.1.data)) = some c.2.1.data) ∧
    (k ∉ (detect_conflicts (scan_intersections a1 a2)).map (fun c => c.1) →
      lastPayload k ((detect_conflicts (scan_intersections a1 a2)).map
        (fun c => c.2.1.data)) = none) := by
  constructor
  · intro c hc hck
    have hnd : (((detect_conflicts (scan_intersections a1 a2)).map
        (fun c => c.2.1.data)).map payloadId).Nodup := by
      rw [cfd1_ids]
      exact nodup_detect_keys a1 a2
    refine lastPayload_eq_some k _ c.2.1.data hnd (List.mem_map_of_mem _ hc) ?_
    obtain ⟨_, hc1, _⟩ := mem_detect _ c hc
    rw [scan_api1_lookup] at hc1
    exact hck ▸ (snapshot_data_id "API-1" a1 c.1 c.2.1 hc1).1
  · intro hk
    refine lastPayload_eq_none k _ ?_
    intro p hp hpk
    obtain ⟨c, hc, rfl⟩ := List.mem_map.1 hp
    obtain ⟨_, hc1, _⟩ := mem_detect _ c hc
    rw [scan_api1_lookup] at hc1
    have := (snapshot_data_id "API-1" a1 c.1 c.2.1 hc1).1
    rw [this] at hpk
    exact hk (hpk ▸ List.mem_map_of_mem _ hc)

/-- The conflict-write list into API-1, looked up by key. -/
lemma lastPayload_cfd2 (a1 a2 : Store) (k : String) :
    (∀ c ∈ detect_conflicts (scan_intersections a1 a2), c.1 = k →
      lastPayload k ((detect_conflicts (scan_intersections a1 a2)).map
        (fun c => c.2.2.data)) = some c.2.2.data) ∧
    (k ∉ (detect_conflicts (scan_intersections a1 a2)).map (fun c => c.1) →
      lastPayload k ((detect_conflicts (scan_intersections a1 a2)).map
        (fun c => c.2.2.data)) = none) := by
  constructor
  · intro c hc hck
    have hnd : (((detect_conflicts (scan_intersections a1 a2)).map
        (fun c => c.2.2.data)).map payloadId).Nodup := by
      rw [cfd2_ids]
      exact nodup_detect_keys a1 a2
    refine lastPayload_eq_some k _ c.2.2.data hnd (List.mem_map_of_mem _ hc) ?_
    obtain ⟨_, _, hc2⟩ := mem_detect _ c hc
    rw [scan_api2_lookup] at hc2
    exact hck ▸ (snapshot_data_id "API-2" a2 c.1 c.2.2 hc2).1
  · intro hk
    refine lastPayload_eq_none k _ ?_
    intro p hp hpk
    obtain ⟨c, hc, rfl⟩ := List.mem_map.1 hp
    obtain ⟨_, _, hc2⟩ := mem_detect _ c hc
    rw [scan_api2_lookup] at hc2
    have := (snapshot_data_id "API-2" a2 c.1 c.2.2 hc2).1
    rw [this] at hpk
    exact hk (hpk ▸ List.mem_map_of_mem _ hc)

end APISync

namespace APISync

lemma filter_noFail_1 (cf : List (String × APIRecord × APIRecord)) :
    cf.filter (fun c => ¬ noFail c.2.1.id) = cf := by
  simp [noFail]

lemma filter_noFail_2 (cf : List (String × APIRecord × APIRecord)) :
    cf.filter (fun c => ¬ noFail c.2.2.id) = cf := by
  simp [noFail]

/-- Final stores of a failure-free api1_wins run. -/
lemma runSync_api1_wins_stores (a1 a2 : Store) :
    (runSync a1 a2 "api1_wins" noFail).api1 =
      a1 ++ (scan_intersections a1 a2).api2_only.filterMap
        (createOutcome1 (scan_intersections a1 a2) noFail) ∧
    (runSync a1 a2 "api1_wins" noFail).api2 =
      (a2 ++ (detect_conflicts (scan_intersections a1 a2)).map (fun c => c.2.1.data)) ++
        (scan_intersections a1 a2).api1_only.filterMap
          (createOutcome2 (scan_intersections a1 a2) noFail) := by
  have hrun : runSync a1 a2 "api1_wins" noFail =
      sync_intersections a1 a2 (scan_intersections a1 a2)
        (detect_conflicts (scan_intersections a1 a2)) "api1_wins" noFail := rfl
  rw [hrun]
  simp only [sync_intersections]
  rw [conflictFold_api1_wins, createFold2_eq, createFold1_eq]
  simp only [filter_noFail_1]
  exact ⟨trivial, trivial⟩

/-- Final stores of a failure-free api2_wins run. -/
lemma runSync_api2_wins_stores (a1 a2 : Store) :
    (runSync a1 a2 "api2_wins" noFail).api1 =
      (a1 ++ (detect_conflicts (scan_intersections a1 a2)).map (fun c => c.2.2.data)) ++
        (scan_intersections a1 a2).api2_only.filterMap
          (createOutcome1 (scan_intersections a1 a2) noFail) ∧
    (runSync a1 a2 "api2_wins" noFail).api2 =
      a2 ++ (scan_intersections a1 a2).api1_only.filterMap
        (createOutcome2 (scan_intersections a1 a2) noFail) := by
  have hrun : runSync a1 a2 "api2_wins" noFail =
      sync_intersections a1 a2 (scan_intersections a1 a2)
        (detect_conflicts (scan_intersections a1 a2)) "api2_wins" noFail := rfl
  rw [hrun]
  simp only [sync_intersections]
  rw [conflictFold_api2_wins, createFold2_eq, createFold1_eq]
  simp only [filter_noFail_2]
  exact ⟨trivial, trivial⟩

/-- Snapshot membership through lastPayload, side 1. -/
lemma mkeys1_of_lastPayload (a1 : Store) (k : String) (p : Payload)
    (h : lastPayload k a1 = some p) :
    k ∈ mkeys (buildRecords "API-1" a1) := by
  rw [mem_mkeys_iff_snapshot]
  unfold snapshotRecord
  rw [h]
  rfl

/-- Snapshot membership through lastPayload, side 2. -/
lemma mkeys2_of_lastPayload (a2 : Store) (k : String) (p : Payload)
    (h : lastPayload k a2 = some p) :
    k ∈ mkeys (buildRecords "API-2" a2) := by
  rw [mem_mkeys_iff_snapshot]
  unfold snapshotRecord
  rw [h]
  rfl

/-- Conflict keys are common keys. -/
lemma detect_keys_common (a1 a2 : Store) (k : String)
    (h : k ∈ (detect_conflicts (scan_intersections a1 a2)).map (fun c => c.1)) :
    k ∈ (scan_intersections a1 a2).common_records := by
  obtain ⟨c, hc, rfl⟩ := List.mem_map.1 h
  exact (mem_detect _ c hc).1

end APISync

namespace APISync

/-- Unpacking a successful snapshot lookup. -/
lemma snapshot_some_elim (src : String) (store : Store) (k : String)
    (rec : APIRecord) (h : snapshotRecord src store k = some rec) :
    ∃ p, lastPayload k store = some p ∧
      rec = APIRecord.make k p (lastModifiedOf p) src := by
  unfold snapshotRecord at h
  cases hq : lastPayload k store with
  | none => rw [hq] at h; cases h
  | some p =>
    rw [hq] at h
    refine ⟨p, rfl, ?_⟩
    cases h
    rfl

/-- Appending a segment without the key does not change the lookup. -/
lemma lastPayload_append_none (k : String) (l1 l2 : Store)
    (h : lastPayload k l2 = none) :
    lastPayload k (l1 ++ l2) = lastPayload k l1 := by
  rw [lastPayload_append, h]

/-- Appending a segment holding the key makes its payload the lookup. -/
lemma lastPayload_append_some (k : String) (l1 l2 : Store) (p : Payload)
    (h : lastPayload k l2 = some p) :
    lastPayload k (l1 ++ l2) = some p := by
  rw [lastPayload_append, h]

/-- After a failure-free api1_wins run, any key found on both sides by
the re-scan carries equal checksums on the two sides. -/
lemma second_checksums_api1_wins (a1 a2 : Store) (k : String)
    (r1' r2' : APIRecord)
    (h1 : snapshotRecord "API-1" ((runSync a1 a2 "api1_wins" noFail).api1) k = some r1')
    (h2 : snapshotRecord "API-2" ((runSync a1 a2 "api1_wins" noFail).api2) k = some r2') :
    r1'.checksum = r2'.checksum := by
  obtain ⟨hS1, hS2⟩ := runSync_api1_wins_stores a1 a2
  rw [hS1] at h1
  rw [hS2] at h2
  obtain ⟨p1, hp1, rfl⟩ := snapshot_some_elim _ _ _ _ h1
  obtain ⟨p2, hp2, rfl⟩ := snapshot_some_elim _ _ _ _ h2
  show calculate_checksum p1 = calculate_checksum p2
  by_cases hk2only : k ∈ (scan_intersections a1 a2).api2_only
  · obtain ⟨rec2, hlook2, hfm1⟩ := (lastPayload_fm1 a1 a2 k).1 hk2only
    rw [lastPayload_append_some k a1 _ rec2.data hfm1] at hp1
    cases hp1
    have hknom1 : k ∉ mkeys (buildRecords "API-1" a1) :=
      ((mem_api2_only a1 a2 k).1 hk2only).2
    have hnotonly1 : k ∉ (scan_intersections a1 a2).api1_only := by
      intro hh
      exact hknom1 ((mem_api1_only a1 a2 k).1 hh).1
    have hnotcf : k ∉ (detect_conflicts (scan_intersections a1 a2)).map
        (fun c => c.1) := by
      intro hh
      exact hknom1 ((mem_common a1 a2 k).1 (detect_keys_common a1 a2 k hh)).1
    rw [lastPayload_append_none k _ _ ((lastPayload_fm2 a1 a2 k).2 hnotonly1),
        lastPayload_append_none k _ _ ((lastPayload_cfd1 a1 a2 k).2 hnotcf)] at hp2
    rw [scan_api2_lookup] at hlook2
    obtain ⟨q2, hq2, rfl⟩ := snapshot_some_elim _ _ _ _ hlook2
    rw [hq2] at hp2
    cases hp2
    rfl
  · rw [lastPayload_append_none k _ _ ((lastPayload_fm1 a1 a2 k).2 hk2only)] at hp1
    have hkm1 : k ∈ mkeys (buildRecords "API-1" a1) :=
      mkeys1_of_lastPayload a1 k p1 hp1
    by_cases hk1only : k ∈ (scan_intersections a1 a2).api1_only
    · obtain ⟨rec1, hlook1, hfm2⟩ := (lastPayload_fm2 a1 a2 k).1 hk1only
      rw [lastPayload_append_some k _ _ rec1.data hfm2] at hp2
      cases hp2
      rw [scan_api1_lookup] at hlook1
      obtain ⟨q1, hq1, rfl⟩ := snapshot_some_elim _ _ _ _ hlook1
      rw [hq1] at hp1
      cases hp1
      rfl
    · have hkm2 : k ∈ mkeys (buildRecords "API-2" a2) := by
        by_contra hkm2
        exact hk1only ((mem_api1_only a1 a2 k).2 ⟨hkm1, hkm2⟩)
      have hkcommon : k ∈ (scan_intersections a1 a2).common_records :=
        (mem_common a1 a2 k).2 ⟨hkm1, hkm2⟩
      rw [lastPayload_append_none k _ _ ((lastPayload_fm2 a1 a2 k).2 hk1only)] at hp2
      by_cases hkcf : k ∈ (detect_conflicts (scan_intersections a1 a2)).map
          (fun c => c.1)
      · obtain ⟨c, hc, hck⟩ := List.mem_map.1 hkcf
        rw [lastPayload_append_some k _ _ c.2.1.data
          ((lastPayload_cfd1 a1 a2 k).1 c hc hck)] at hp2
        cases hp2
        obtain ⟨_, hc1, _⟩ := mem_detect _ c hc
        rw [hck, scan_api1_lookup] at hc1
        obtain ⟨q1, hq1, hrec⟩ := snapshot_some_elim _ _ _ _ hc1
        rw [hq1] at hp1
        cases hp1
        rw [hrec]
        rfl
      · rw [lastPayload_append_none k _ _ ((lastPayload_cfd1 a1 a2 k).2 hkcf)] at hp2
        by_contra hne
        have hr1 : recLookup (scan_intersections a1 a2).api1_data k =
            some (APIRecord.make k p1 (lastModifiedOf p1) "API-1") := by
          rw [scan_api1_lookup]
          unfold snapshotRecord
          rw [hp1]
          rfl
        have hr2 : recLookup (scan_intersections a1 a2).api2_data k =
            some (APIRecord.make k p2 (lastModifiedOf p2) "API-2") := by
          rw [scan_api2_lookup]
          unfold snapshotRecord
          rw [hp2]
          rfl
        have hmem := detect_of_mismatch (scan_intersections a1 a2) k _ _
          hkcommon hr1 hr2 hne
        exact hkcf (List.mem_map.2 ⟨_, hmem, rfl⟩)

end APISync

namespace APISync

/-- After a failure-free api2_wins run, any key found on both sides by
the re-scan carries equal checksums on the two sides. -/
lemma second_checksums_api2_wins (a1 a2 : Store) (k : String)
    (r1' r2' : APIRecord)
    (h1 : snapshotRecord "API-1" ((runSync a1 a2 "api2_wins" noFail).api1) k = some r1')
    (h2 : snapshotRecord "API-2" ((runSync a1 a2 "api2_wins" noFail).api2) k = some r2') :
    r1'.checksum = r2'.checksum := by
  obtain ⟨hS1, hS2⟩ := runSync_api2_wins_stores a1 a2
  rw [hS1] at h1
  rw [hS2] at h2
  obtain ⟨p1, hp1, rfl⟩ := snapshot_some_elim _ _ _ _ h1
  obtain ⟨p2, hp2, rfl⟩ := snapshot_some_elim _ _ _ _ h2
  show calculate_checksum p1 = calculate_checksum p2
  by_cases hk1only : k ∈ (scan_intersections a1 a2).api1_only
  · obtain ⟨rec1, hlook1, hfm2⟩ := (lastPayload_fm2 a1 a2 k).1 hk1only
    rw [lastPayload_append_some k a2 _ rec1.data hfm2] at hp2
    cases hp2
    have hknom2 : k ∉ mkeys (buildRecords "API-2" a2) :=
      ((mem_api1_only a1 a2 k).1 hk1only).2
    have hnotonly2 : k ∉ (scan_intersections a1 a2).api2_only := by
      intro hh
      exact hknom2 ((mem_api2_only a1 a2 k).1 hh).1
    have hnotcf : k ∉ (detect_conflicts (scan_intersections a1 a2)).map
        (fun c => c.1) := by
      intro hh
      exact hknom2 ((mem_common a1 a2 k).1 (detect_keys_common a1 a2 k hh)).2
    rw [lastPayload_append_none k _ _ ((lastPayload_fm1 a1 a2 k).2 hnotonly2),
        lastPayload_append_none k _ _ ((lastPayload_cfd2 a1 a2 k).2 hnotcf)] at hp1
    rw [scan_api1_lookup] at hlook1
    obtain ⟨q1, hq1, rfl⟩ := snapshot_some_elim _ _ _ _ hlook1
    rw [hq1] at hp1
    cases hp1
    rfl
  · rw [lastPayload_append_none k _ _ ((lastPayload_fm2 a1 a2 k).2 hk1only)] at hp2
    have hkm2 : k ∈ mkeys (buildRecords "API-2" a2) :=
      mkeys2_of_lastPayload a2 k p2 hp2
    by_cases hk2only : k ∈ (scan_intersections a1 a2).api2_only
    · obtain ⟨rec2, hlook2, hfm1⟩ := (lastPayload_fm1 a1 a2 k).1 hk2only
      rw [lastPayload_append_some k _ _ rec2.data hfm1] at hp1
      cases hp1
      rw [scan_api2_lookup] at hlook2
      obtain ⟨q2, hq2, rfl⟩ := snapshot_some_elim _ _ _ _ hlook2
      rw [hq2] at hp2
      cases hp2
      rfl
    · have hkm1 : k ∈ mkeys (buildRecords "API-1" a1) := by
        by_contra hkm1
        exact hk2only ((mem_api2_only a1 a2 k).2 ⟨hkm2, hkm1⟩)
      have hkcommon : k ∈ (scan_intersections a1 a2).common_records :=
        (mem_common a1 a2 k).2 ⟨hkm1, hkm2⟩
      rw [lastPayload_append_none k _ _ ((lastPayload_fm1 a1 a2 k).2 hk2only)] at hp1
      by_cases hkcf : k ∈ (detect_conflicts (scan_intersections a1 a2)).map
          (fun c => c.1)
      · obtain ⟨c, hc, hck⟩ := List.mem_map.1 hkcf
        rw [lastPayload_append_some k _ _ c.2.2.data
          ((lastPayload_cfd2 a1 a2 k).1 c hc hck)] at hp1
        cases hp1
        obtain ⟨_, _, hc2⟩ := mem_detect _ c hc
        rw [hck, scan_api2_lookup] at hc2
        obtain ⟨q2, hq2, hrec⟩ := snapshot_some_elim _ _ _ _ hc2
        rw [hq2] at hp2
        cases hp2
        rw [hrec]
        rfl
      · rw [lastPayload_append_none k _ _ ((lastPayload_cfd2 a1 a2 k).2 hkcf)] at hp1
        by_contra hne
        have hr1 : recLookup (scan_intersections a1 a2).api1_data k =
            some (APIRecord.make k p1 (lastModifiedOf p1) "API-1") := by
          rw [scan_api1_lookup]
          unfold snapshotRecord
          rw [hp1]
          rfl
        have hr2 : recLookup (scan_intersections a1 a2).api2_data k =
            some (APIRecord.make k p2 (lastModifiedOf p2) "API-2") := by
          rw [scan_api2_lookup]
          unfold snapshotRecord
          rw [hp2]
          rfl
        have hmem := detect_of_mismatch (scan_intersections a1 a2) k _ _
          hkcommon hr1 hr2 hne
        exact hkcf (List.mem_map.2 ⟨_, hmem, rfl⟩)

end APISync

namespace APISync

/-- The second run's conflict detection is empty for the one-directional
strategies. -/
lemma second_detect_empty (a1 a2 : Store) (s : String)
    (hs : s = "api1_wins" ∨ s = "api2_wins") :
    detect_conflicts (scan_intersections (runSync a1 a2 s noFail).api1
      (runSync a1 a2 s noFail).api2) = [] := by
  unfold detect_conflicts
  rw [List.filterMap_eq_nil_iff]
  intro k hk
  rw [scan_api1_lookup, scan_api2_lookup]
  cases hq1 : snapshotRecord "API-1" ((runSync a1 a2 s noFail).api1) k with
  | none => rfl
  | some r1 =>
    cases hq2 : snapshotRecord "API-2" ((runSync a1 a2 s noFail).api2) k with
    | none => rfl
    | some r2 =>
      dsimp only
      have hEq : r1.checksum = r2.checksum := by
        rcases hs with rfl | rfl
        · exact second_checksums_api1_wins a1 a2 k r1 r2 hq1 hq2
        · exact second_checksums_api2_wins a1 a2 k r1 r2 hq1 hq2
      rw [if_neg (by simpa using hEq)]

end APISync

/-- C4 (amended): the pipeline is idempotent for the one-directional
strategies api1_wins and api2_wins in the API implementation: an
error-free second run on the stores the first run produced detects zero
conflicts and performs zero propagations — no creations and no updates.
Under latest_wins the skipped conflicts recur (see the counterexample),
and the database implementation is not idempotent either, because its
scan pairs every common id with the first source and first target rows. -/
theorem second_run_clean (a1 a2 : APISync.Store) (s : String)
    (hs : s = "api1_wins" ∨ s = "api2_wins") :
    APISync.detect_conflicts (APISync.scan_intersections
        (APISync.runSync a1 a2 s APISync.noFail).api1
        (APISync.runSync a1 a2 s APISync.noFail).api2) = [] ∧
    (APISync.runSync (APISync.runSync a1 a2 s APISync.noFail).api1
        (APISync.runSync a1 a2 s APISync.noFail).api2 s
        APISync.noFail).stats.updated = 0 ∧
    (APISync.runSync (APISync.runSync a1 a2 s APISync.noFail).api1
        (APISync.runSync a1 a2 s APISync.noFail).api2 s
        APISync.noFail).stats.created = 0 := by
  refine ⟨APISync.second_detect_empty a1 a2 s hs, ?_, ?_⟩ <;>
  · have hdet := APISync.second_detect_empty a1 a2 s hs
    have honly := APISync.rescan_only_empty a1 a2 s
    have hrun2 : APISync.runSync (APISync.runSync a1 a2 s APISync.noFail).api1
        (APISync.runSync a1 a2 s APISync.noFail).api2 s APISync.noFail =
        APISync.sync_intersections
          (APISync.runSync a1 a2 s APISync.noFail).api1
          (APISync.runSync a1 a2 s APISync.noFail).api2
          (APISync.scan_intersections (APISync.runSync a1 a2 s APISync.noFail).api1
            (APISync.runSync a1 a2 s APISync.noFail).api2)
          (APISync.detect_conflicts (APISync.scan_intersections
            (APISync.runSync a1 a2 s APISync.noFail).api1
            (APISync.runSync a1 a2 s APISync.noFail).api2)) s APISync.noFail := rfl
    rw [hrun2, hdet]
    have hst := APISync.sync_noFail_stats
      (APISync.runSync a1 a2 s APISync.noFail).api1
      (APISync.runSync a1 a2 s APISync.noFail).api2 [] s
      ⟨APISync.Stats.zero, (APISync.runSync a1 a2 s APISync.noFail).api1,
        (APISync.runSync a1 a2 s APISync.noFail).api2⟩ rfl
    rw [hst, honly.1, honly.2]
    rfl

/-- Witness: one conflicting key and one API-2-exclusive key; the second
api1_wins run detects nothing and writes nothing. -/
theorem second_run_clean_witness :
    (("api1_wins" : String) = "api1_wins" ∨ ("api1_wins" : String) = "api2_wins") ∧
    (APISync.detect_conflicts (APISync.scan_intersections
        (APISync.runSync [[("id", JStr "1"), ("v", JStr "a")]]
          [[("id", JStr "1"), ("v", JStr "b")], [("id", JStr "2"), ("v", JStr "c")]]
          "api1_wins" APISync.noFail).api1
        (APISync.runSync [[("id", JStr "1"), ("v", JStr "a")]]
          [[("id", JStr "1"), ("v", JStr "b")], [("id", JStr "2"), ("v", JStr "c")]]
          "api1_wins" APISync.noFail).api2) = [] ∧
      (APISync.runSync
          (APISync.runSync [[("id", JStr "1"), ("v", JStr "a")]]
            [[("id", JStr "1"), ("v", JStr "b")], [("id", JStr "2"), ("v", JStr "c")]]
            "api1_wins" APISync.noFail).api1
          (APISync.runSync [[("id", JStr "1"), ("v", JStr "a")]]
            [[("id", JStr "1"), ("v", JStr "b")], [("id", JStr "2"), ("v", JStr "c")]]
            "api1_wins" APISync.noFail).api2 "api1_wins"
          APISync.noFail).stats.updated = 0 ∧
      (APISync.runSync
          (APISync.runSync [[("id", JStr "1"), ("v", JStr "a")]]
            [[("id", JStr "1"), ("v", JStr "b")], [("id", JStr "2"), ("v", JStr "c")]]
            "api1_wins" APISync.noFail).api1
          (APISync.runSync [[("id", JStr "1"), ("v", JStr "a")]]
            [[("id", JStr "1"), ("v", JStr "b")], [("id", JStr "2"), ("v", JStr "c")]]
            "api1_wins" APISync.noFail).api2 "api1_wins"
          APISync.noFail).stats.created = 0) :=
  ⟨Or.inl rfl,
   second_run_clean [[("id", JStr "1"), ("v", JStr "a")]]
     [[("id", JStr "1"), ("v", JStr "b")], [("id", JStr "2"), ("v", JStr "c")]]
     "api1_wins" (Or.inl rfl)⟩
